import Mathlib

set_option maxHeartbeats 2000000
set_option maxRecDepth 8192

/-!
Shallow embedding of the TitanLOB matching engine core
(src/order_book.cpp together with the OptimizedOrderBook class of
src/gateway.h, which carries the order_book.h class body).

Machine integers are modelled as Int (int64_t fields: price, quantity, ...)
and Nat (uint64_t / uint32_t / size_t fields: ids, indices, counters), with
the size_t cast in price_to_index taken modulo 2^64.  The intrusive
doubly-linked FIFO is modelled exactly as in the source: each pool-resident
order carries next and prev indices and each price level carries head and
tail indices, with NULL_INDEX as the sentinel.  The dense per-side
price-level arrays, the per-side bitmaps (64-bit words) and the order index
are modelled as total functions from Nat.  Loops of the matching walk are
given an explicit fuel argument and return none when the fuel runs out, so
non-termination of the C++ loop is observable as (for all fuel, result =
none).  Event emission (emit_trade / emit_order_accepted /
emit_order_cancelled) appends to an output list, standing for the batch
buffer plus output ring of the source; the ring-full drop path is never
taken by any property studied here.
-/

namespace TitanLOB

/-- Modelled from the spec: object_pool.h is not under src/.  NULL_INDEX is
the uint32_t sentinel index of the intrusive FIFO (spec 4.2), i.e. the
maximum 32-bit value. -/
def NULL_INDEX : Nat := 4294967295

/-- MAX_PRICE_LEVELS (order_book.h, gateway.h line 302). -/
def MAX_PRICE_LEVELS : Nat := 33554432

/-- BITMAP_WORDS = MAX_PRICE_LEVELS / 64 (gateway.h line 304). -/
def BITMAP_WORDS : Nat := MAX_PRICE_LEVELS / 64

/-- PRICE_OFFSET (gateway.h line 301). -/
def PRICE_OFFSET : Int := 0

/-- INT64_MAX, the no-ask sentinel of the source. -/
def INT64_MAX : Int := 9223372036854775807

/-- Two to the 64: the modulus of size_t and uint64_t arithmetic. -/
def U64 : Nat := 18446744073709551616

/-- TimeInForce (gateway.h lines 308-310). -/
inductive TimeInForce where
  | GTC
  | IOC
  | FOK
  | AON
deriving DecidableEq

/-- Pool-resident order record (gateway.h lines 322-340).  The flag bits
{buy, aon} are modelled as two Bool fields. -/
structure Order where
  order_id : Nat
  price : Int
  quantity : Int
  hidden_quantity : Int
  peak_size : Int
  next : Nat
  prev : Nat
  user_id_low : Nat
  buy : Bool
  aon : Bool
deriving DecidableEq

/-- Zero-initialised order record, the content of an untouched pool slot. -/
def defaultOrder : Order :=
  { order_id := 0, price := 0, quantity := 0, hidden_quantity := 0,
    peak_size := 0, next := 0, prev := 0, user_id_low := 0,
    buy := false, aon := false }

/-- Order.is_buy (gateway.h line 336). -/
def Order.is_buy (o : Order) : Bool := o.buy

/-- Order.is_aon (gateway.h line 337). -/
def Order.is_aon (o : Order) : Bool := o.aon

/-- Price level entry (gateway.h lines 343-358). -/
structure PriceLevel where
  head : Nat
  tail : Nat
  count : Nat
  total_volume : Int
  total_visible_volume : Int
  total_aon_volume : Int
  total_non_aon_volume : Int
deriving DecidableEq

/-- PriceLevel.reset value (gateway.h lines 353-357); also the
default-constructed level. -/
def emptyLevel : PriceLevel :=
  { head := NULL_INDEX, tail := NULL_INDEX, count := 0, total_volume := 0,
    total_visible_volume := 0, total_aon_volume := 0, total_non_aon_volume := 0 }

/-- PriceLevel.empty (gateway.h line 352). -/
def PriceLevel.empty (l : PriceLevel) : Bool := l.head == NULL_INDEX

/-- Modelled from the spec: object_pool.h is not under src/ (spec 4.1: a
free-list maintained as a stack of indices; the slab grows by doubling when
exhausted; reset returns every slot to the free list).  Slots are a total
function from slot index to order record. -/
structure ObjectPool where
  slots : Nat → Order
  free_list : List Nat
  capacity : Nat

/-- Modelled from the spec: allocate pops the free-list stack in O(1); when
the free list is exhausted the slab doubles and the first new slot is
returned, the remaining new slots going to the free list. -/
def ObjectPool.allocate (p : ObjectPool) : Nat × ObjectPool :=
  match p.free_list with
  | f :: rest => (f, { p with free_list := rest })
  | [] => (p.capacity,
      { p with capacity := 2 * p.capacity,
               free_list := List.range' (p.capacity + 1) (p.capacity - 1) })

/-- Modelled from the spec: free pushes the slot index back on the free-list
stack in O(1). -/
def ObjectPool.free (p : ObjectPool) (idx : Nat) : ObjectPool :=
  { p with free_list := idx :: p.free_list }

/-- Modelled from the spec: reset returns every slot to the free list. -/
def ObjectPool.reset (p : ObjectPool) : ObjectPool :=
  { p with free_list := List.range p.capacity }

/-- Order index entry OrderLocation (gateway.h lines 421-431); the flag bits
{buy, active} are modelled as two Bool fields. -/
structure OrderLocation where
  price : Int
  pool_idx : Nat
  buy : Bool
  active : Bool
deriving DecidableEq

/-- Zero-initialised (inactive) order-index entry, the content of a freshly
resized vector slot. -/
def defaultLoc : OrderLocation :=
  { price := 0, pool_idx := 0, buy := false, active := false }

/-- OrderLocation.is_buy (gateway.h line 427). -/
def OrderLocation.is_buy (l : OrderLocation) : Bool := l.buy

/-- OrderLocation.is_active (gateway.h line 428). -/
def OrderLocation.is_active (l : OrderLocation) : Bool := l.active

/-- Output event record (output_msg.h): trade, order-accepted and
order-cancelled payloads with timestamps; the side of an accept is carried
as the is_buy Bool of the source Side tag. -/
inductive OutputMsg where
  | trade (timestamp : Nat) (buy_order_id : Nat) (sell_order_id : Nat)
      (price : Int) (quantity : Int)
  | accepted (timestamp : Nat) (order_id : Nat) (is_buy : Bool)
      (price : Int) (quantity : Int)
  | cancelled (timestamp : Nat) (order_id : Nat) (cancelled_quantity : Int)
deriving DecidableEq

/-- The complete mutable state of OptimizedOrderBook (gateway.h lines
401-464).  The batch buffer and output ring are collapsed into the emitted
event list out. -/
structure Book where
  bid_levels : Nat → PriceLevel
  ask_levels : Nat → PriceLevel
  bid_bitmap : Nat → Nat
  ask_bitmap : Nat → Nat
  best_bid : Int
  best_ask : Int
  best_bid_word : Int
  best_ask_word : Int
  bid_level_count : Nat
  ask_level_count : Nat
  order_pool : ObjectPool
  order_index : Nat → OrderLocation
  order_index_size : Nat
  active_order_count : Nat
  max_order_id : Nat
  use_ring_buffer : Bool
  emit_accepts : Bool
  emit_cancels : Bool
  out : List OutputMsg
  current_timestamp : Nat
  trades_executed : Nat
  messages_dropped : Nat

/-- price_to_index (gateway.h lines 445-447): static_cast of an int64_t to
size_t, i.e. reduction modulo 2^64. -/
def priceToIndex (price : Int) : Nat := ((price - PRICE_OFFSET) % (U64 : Int)).toNat

/-- index_to_price (gateway.h lines 449-451). -/
def indexToPrice (idx : Int) : Int := idx + PRICE_OFFSET

/-- Side-selected level array lookup: levels[idx] after
auto levels = is_bid ? bid_levels_ : ask_levels_. -/
def Book.getLevel (s : Book) (is_bid : Bool) (idx : Nat) : PriceLevel :=
  if is_bid then s.bid_levels idx else s.ask_levels idx

/-- Side-selected level array store. -/
def Book.setLevel (s : Book) (is_bid : Bool) (idx : Nat) (l : PriceLevel) : Book :=
  if is_bid then
    { s with bid_levels := fun j => if j = idx then l else s.bid_levels j }
  else
    { s with ask_levels := fun j => if j = idx then l else s.ask_levels j }

/-- order_pool_[i] read access. -/
def Book.poolGet (s : Book) (i : Nat) : Order := s.order_pool.slots i

/-- order_pool_[i] write access. -/
def Book.poolSet (s : Book) (i : Nat) (o : Order) : Book :=
  { s with order_pool :=
      { s.order_pool with slots := fun j => if j = i then o else s.order_pool.slots j } }

/-- ensure_capacity (gateway.h lines 438-443): grow the order index to
max(id+1, 2 * size) when the id is beyond it (new entries default-inactive,
as vector::resize value-initialises them), and maintain max_order_id_. -/
def Book.ensure_capacity (s : Book) (order_id : Nat) : Book :=
  let s :=
    if s.order_index_size ≤ order_id then
      let newsize := max (order_id + 1) (2 * s.order_index_size)
      { s with
        order_index := fun j =>
          if s.order_index_size ≤ j ∧ j < newsize then defaultLoc else s.order_index j,
        order_index_size := newsize }
    else s
  if s.max_order_id < order_id then { s with max_order_id := order_id } else s

/-- list_push_back (gateway.h lines 468-480): append the pool node idx at the
tail of the intrusive FIFO of the level at index li of the given side. -/
def Book.list_push_back (s : Book) (is_bid : Bool) (li : Nat) (idx : Nat) : Book :=
  let level := s.getLevel is_bid li
  let node := s.poolGet idx
  let s := s.poolSet idx { node with next := NULL_INDEX, prev := level.tail }
  let s :=
    if level.tail ≠ NULL_INDEX then
      s.poolSet level.tail { s.poolGet level.tail with next := idx }
    else
      s.setLevel is_bid li { s.getLevel is_bid li with head := idx }
  let level2 := s.getLevel is_bid li
  s.setLevel is_bid li { level2 with tail := idx, count := level2.count + 1 }

/-- list_remove (gateway.h lines 482-499): detach the pool node idx from the
intrusive FIFO of the level at index li using its own prev and next. -/
def Book.list_remove (s : Book) (is_bid : Bool) (li : Nat) (idx : Nat) : Book :=
  let node := s.poolGet idx
  let s :=
    if node.prev ≠ NULL_INDEX then
      s.poolSet node.prev { s.poolGet node.prev with next := node.next }
    else
      s.setLevel is_bid li { s.getLevel is_bid li with head := node.next }
  let s :=
    if node.next ≠ NULL_INDEX then
      s.poolSet node.next { s.poolGet node.next with prev := node.prev }
    else
      s.setLevel is_bid li { s.getLevel is_bid li with tail := node.prev }
  let s := s.poolSet idx { s.poolGet idx with prev := NULL_INDEX, next := NULL_INDEX }
  let lv := s.getLevel is_bid li
  s.setLevel is_bid li { lv with count := lv.count - 1 }

/-- add_to_level_volume (gateway.h lines 501-510). -/
def add_to_level_volume (level : PriceLevel) (order : Order) : PriceLevel :=
  let total := order.quantity + order.hidden_quantity
  { level with
    total_volume := level.total_volume + total,
    total_visible_volume := level.total_visible_volume + order.quantity,
    total_aon_volume :=
      if order.is_aon then level.total_aon_volume + total else level.total_aon_volume,
    total_non_aon_volume :=
      if order.is_aon then level.total_non_aon_volume else level.total_non_aon_volume + total }

/-- remove_from_level_volume (gateway.h lines 512-521). -/
def remove_from_level_volume (level : PriceLevel) (order : Order) : PriceLevel :=
  let total := order.quantity + order.hidden_quantity
  { level with
    total_volume := level.total_volume - total,
    total_visible_volume := level.total_visible_volume - order.quantity,
    total_aon_volume :=
      if order.is_aon then level.total_aon_volume - total else level.total_aon_volume,
    total_non_aon_volume :=
      if order.is_aon then level.total_non_aon_volume else level.total_non_aon_volume - total }

/-- adjust_level_volume (gateway.h lines 523-532). -/
def adjust_level_volume (level : PriceLevel) (visible_delta hidden_delta : Int)
    (is_aon : Bool) : PriceLevel :=
  { level with
    total_volume := level.total_volume + visible_delta + hidden_delta,
    total_visible_volume := level.total_visible_volume + visible_delta,
    total_aon_volume :=
      if is_aon then level.total_aon_volume + visible_delta + hidden_delta
      else level.total_aon_volume,
    total_non_aon_volume :=
      if is_aon then level.total_non_aon_volume
      else level.total_non_aon_volume + visible_delta + hidden_delta }

/-- bitmap_set (gateway.h lines 389-391): or the bit idx mod 64 into word
idx / 64. -/
def bitmap_set (bm : Nat → Nat) (idx : Nat) : Nat → Nat :=
  fun w => if w = idx / 64 then bm (idx / 64) ||| 2 ^ (idx % 64) else bm w

/-- bitmap_clear (gateway.h lines 393-395): and word idx / 64 with the
complement mask of bit idx mod 64 (the uint64_t value of the C expression
is 2^64 - 1 - 2^k). -/
def bitmap_clear (bm : Nat → Nat) (idx : Nat) : Nat → Nat :=
  fun w => if w = idx / 64 then bm (idx / 64) &&& (U64 - 1 - 2 ^ (idx % 64)) else bm w

/-- bitmap_test (gateway.h lines 397-399). -/
def bitmap_test (bm : Nat → Nat) (idx : Nat) : Bool :=
  bm (idx / 64) &&& 2 ^ (idx % 64) ≠ 0

/-- Binary logarithm with explicit structural fuel (64 suffices for any
64-bit word), so that the kernel can evaluate it. -/
def log2_aux : Nat → Nat → Nat
  | 0, _ => 0
  | fuel + 1, n => if 2 ≤ n then log2_aux fuel (n / 2) + 1 else 0

/-- Position of the highest set bit of a nonzero 64-bit word, the value of
63 - clz(word) computed by the hardware count-leading-zeros primitive. -/
def log2_64 (n : Nat) : Nat := log2_aux 64 n

/-- Count of trailing zeros of a nonzero 64-bit word: position of its lowest
set bit, as computed by the ctz hardware primitive. -/
def ctz64 (n : Nat) : Nat := log2_64 (n &&& (U64 - n))

/-- Descending word scan of bitmap_find_highest (gateway.h lines 367-376):
scan words w, w-1, ..., 0 and report the highest set bit found. -/
def bitmap_find_highest_aux (bm : Nat → Nat) : Nat → Int
  | 0 => if bm 0 ≠ 0 then (log2_64 (bm 0) : Int) else -1
  | w + 1 =>
    if bm (w + 1) ≠ 0 then ((w + 1) * 64 + log2_64 (bm (w + 1)) : Int)
    else bitmap_find_highest_aux bm w

/-- bitmap_find_highest (gateway.h lines 367-376). -/
def bitmap_find_highest (bm : Nat → Nat) (start_word : Int) : Int :=
  if start_word < 0 then -1 else bitmap_find_highest_aux bm start_word.toNat

/-- Ascending word scan of bitmap_find_lowest (gateway.h lines 378-387):
scan k words starting at w and report the lowest set bit found. -/
def bitmap_find_lowest_aux (bm : Nat → Nat) : Nat → Nat → Int
  | 0, _ => -1
  | k + 1, w =>
    if bm w ≠ 0 then ((w * 64 + ctz64 (bm w) : Nat) : Int)
    else bitmap_find_lowest_aux bm k (w + 1)

/-- bitmap_find_lowest (gateway.h lines 378-387); a negative start word casts
to a size_t beyond num_words, so the loop body never runs. -/
def bitmap_find_lowest (bm : Nat → Nat) (num_words : Nat) (start_word : Int) : Int :=
  if start_word < 0 then -1
  else bitmap_find_lowest_aux bm (num_words - start_word.toNat) start_word.toNat

/-- update_best_bid_after_add (gateway.h lines 534-541). -/
def Book.update_best_bid_after_add (s : Book) (price : Int) : Book :=
  let idx := priceToIndex price
  let s := { s with bid_bitmap := bitmap_set s.bid_bitmap idx }
  if s.best_bid < 0 ∨ s.best_bid < price then
    { s with best_bid := price, best_bid_word := (idx / 64 : Nat) }
  else s

/-- update_best_ask_after_add (gateway.h lines 543-550). -/
def Book.update_best_ask_after_add (s : Book) (price : Int) : Book :=
  let idx := priceToIndex price
  let s := { s with ask_bitmap := bitmap_set s.ask_bitmap idx }
  if s.best_ask = INT64_MAX ∨ price < s.best_ask then
    { s with best_ask := price, best_ask_word := (idx / 64 : Nat) }
  else s

/-- update_best_bid_after_remove (gateway.h lines 552-568). -/
def Book.update_best_bid_after_remove (s : Book) (removed_price : Int) : Book :=
  let idx := priceToIndex removed_price
  let s :=
    if (s.bid_levels idx).empty then { s with bid_bitmap := bitmap_clear s.bid_bitmap idx }
    else s
  if removed_price = s.best_bid then
    let new_best := bitmap_find_highest s.bid_bitmap s.best_bid_word
    if 0 ≤ new_best then
      { s with best_bid := indexToPrice new_best, best_bid_word := new_best / 64 }
    else
      { s with best_bid := -1, best_bid_word := -1 }
  else s

/-- update_best_ask_after_remove (gateway.h lines 570-586). -/
def Book.update_best_ask_after_remove (s : Book) (removed_price : Int) : Book :=
  let idx := priceToIndex removed_price
  let s :=
    if (s.ask_levels idx).empty then { s with ask_bitmap := bitmap_clear s.ask_bitmap idx }
    else s
  if removed_price = s.best_ask then
    let new_best := bitmap_find_lowest s.ask_bitmap BITMAP_WORDS s.best_ask_word
    if 0 ≤ new_best then
      { s with best_ask := indexToPrice new_best, best_ask_word := new_best / 64 }
    else
      { s with best_ask := INT64_MAX, best_ask_word := 0 }
  else s

/-- emit_trade (gateway.h lines 598-605): bump the trade counter and, when
ring output is enabled, append a trade event. -/
def Book.emit_trade (s : Book) (buy_id sell_id : Nat) (price qty : Int) : Book :=
  let s := { s with trades_executed := s.trades_executed + 1 }
  if s.use_ring_buffer then
    { s with out := s.out ++ [OutputMsg.trade s.current_timestamp buy_id sell_id price qty] }
  else s

/-- emit_order_accepted (gateway.h lines 607-614). -/
def Book.emit_order_accepted (s : Book) (order_id : Nat) (is_buy : Bool)
    (price qty : Int) : Book :=
  if !s.emit_accepts then s
  else if s.use_ring_buffer then
    { s with out := s.out ++ [OutputMsg.accepted s.current_timestamp order_id is_buy price qty] }
  else s

/-- emit_order_cancelled (gateway.h lines 616-623). -/
def Book.emit_order_cancelled (s : Book) (order_id : Nat) (cancelled_qty : Int) : Book :=
  if !s.emit_cancels then s
  else if s.use_ring_buffer then
    { s with out := s.out ++ [OutputMsg.cancelled s.current_timestamp order_id cancelled_qty] }
  else s

/-- add_order_internal (order_book.cpp lines 5-57): out-of-range prices are
silent no-ops; otherwise allocate a pool record, fill it as a plain non-AON
non-iceberg order, append it to the level FIFO, add its volumes, maintain
level count and best/bitmap on an empty-to-nonempty transition, write the
order-index entry and emit an accept.  The final crossed-book diagnostic of
the source only prints to stderr and changes no state. -/
def Book.add_order_internal (s : Book) (order_id : Nat) (is_buy : Bool)
    (price quantity : Int) (user_id : Nat) : Book :=
  let price_idx := priceToIndex price
  if MAX_PRICE_LEVELS ≤ price_idx then s
  else
    let level := s.getLevel is_buy price_idx
    let was_empty := level.empty
    let alloc := s.order_pool.allocate
    let idx := alloc.1
    let s := { s with order_pool := alloc.2 }
    let order : Order :=
      { order_id := order_id, user_id_low := user_id, price := price,
        quantity := quantity, hidden_quantity := 0, peak_size := 0,
        buy := is_buy, aon := false, next := NULL_INDEX, prev := NULL_INDEX }
    let s := s.poolSet idx order
    let s := s.list_push_back is_buy price_idx idx
    let s := s.setLevel is_buy price_idx
      (add_to_level_volume (s.getLevel is_buy price_idx) order)
    let s :=
      if was_empty then
        if is_buy then
          Book.update_best_bid_after_add
            { s with bid_level_count := s.bid_level_count + 1 } price
        else
          Book.update_best_ask_after_add
            { s with ask_level_count := s.ask_level_count + 1 } price
      else s
    let s := s.ensure_capacity order_id
    let s :=
      { s with
        order_index := fun j =>
          if j = order_id then
            { price := price, pool_idx := idx, buy := is_buy, active := true }
          else s.order_index j,
        active_order_count := s.active_order_count + 1 }
    s.emit_order_accepted order_id is_buy price quantity

/-- add_iceberg_internal (order_book.cpp lines 59-109): displayed quantity is
min(visible, total), the rest is hidden, peak_size is the requested visible
quantity; the accept event carries the displayed quantity. -/
def Book.add_iceberg_internal (s : Book) (order_id : Nat) (is_buy : Bool)
    (price total_quantity visible_quantity : Int) (user_id : Nat) : Book :=
  let price_idx := priceToIndex price
  if MAX_PRICE_LEVELS ≤ price_idx then s
  else
    let level := s.getLevel is_buy price_idx
    let was_empty := level.empty
    let display_qty := min visible_quantity total_quantity
    let hidden_qty := total_quantity - display_qty
    let alloc := s.order_pool.allocate
    let idx := alloc.1
    let s := { s with order_pool := alloc.2 }
    let order : Order :=
      { order_id := order_id, user_id_low := user_id, price := price,
        quantity := display_qty, hidden_quantity := hidden_qty,
        peak_size := visible_quantity, buy := is_buy, aon := false,
        next := NULL_INDEX, prev := NULL_INDEX }
    let s := s.poolSet idx order
    let s := s.list_push_back is_buy price_idx idx
    let s := s.setLevel is_buy price_idx
      (add_to_level_volume (s.getLevel is_buy price_idx) order)
    let s :=
      if was_empty then
        if is_buy then
          Book.update_best_bid_after_add
            { s with bid_level_count := s.bid_level_count + 1 } price
        else
          Book.update_best_ask_after_add
            { s with ask_level_count := s.ask_level_count + 1 } price
      else s
    let s := s.ensure_capacity order_id
    let s :=
      { s with
        order_index := fun j =>
          if j = order_id then
            { price := price, pool_idx := idx, buy := is_buy, active := true }
          else s.order_index j,
        active_order_count := s.active_order_count + 1 }
    s.emit_order_accepted order_id is_buy price display_qty

/-- add_aon_internal (order_book.cpp lines 111-157): rests with the AON flag,
zero hidden and zero peak. -/
def Book.add_aon_internal (s : Book) (order_id : Nat) (is_buy : Bool)
    (price quantity : Int) (user_id : Nat) : Book :=
  let price_idx := priceToIndex price
  if MAX_PRICE_LEVELS ≤ price_idx then s
  else
    let level := s.getLevel is_buy price_idx
    let was_empty := level.empty
    let alloc := s.order_pool.allocate
    let idx := alloc.1
    let s := { s with order_pool := alloc.2 }
    let order : Order :=
      { order_id := order_id, user_id_low := user_id, price := price,
        quantity := quantity, hidden_quantity := 0, peak_size := 0,
        buy := is_buy, aon := true, next := NULL_INDEX, prev := NULL_INDEX }
    let s := s.poolSet idx order
    let s := s.list_push_back is_buy price_idx idx
    let s := s.setLevel is_buy price_idx
      (add_to_level_volume (s.getLevel is_buy price_idx) order)
    let s :=
      if was_empty then
        if is_buy then
          Book.update_best_bid_after_add
            { s with bid_level_count := s.bid_level_count + 1 } price
        else
          Book.update_best_ask_after_add
            { s with ask_level_count := s.ask_level_count + 1 } price
      else s
    let s := s.ensure_capacity order_id
    let s :=
      { s with
        order_index := fun j =>
          if j = order_id then
            { price := price, pool_idx := idx, buy := is_buy, active := true }
          else s.order_index j,
        active_order_count := s.active_order_count + 1 }
    s.emit_order_accepted order_id is_buy price quantity

/-- cancel_order_internal (order_book.cpp lines 159-192): unknown or inactive
ids (and out-of-range stored prices) are silent no-ops; otherwise remove the
order volumes, detach it from the FIFO, free the pool slot, maintain level
count and best/bitmap on a nonempty-to-empty transition, deactivate the index
entry and emit a cancel carrying visible plus hidden quantity. -/
def Book.cancel_order_internal (s : Book) (order_id : Nat) : Book :=
  if s.order_index_size ≤ order_id ∨ ¬ (s.order_index order_id).is_active then s
  else
    let loc := s.order_index order_id
    let price_idx := priceToIndex loc.price
    if MAX_PRICE_LEVELS ≤ price_idx then s
    else
      let is_buy := loc.is_buy
      let order := s.poolGet loc.pool_idx
      let cancelled_qty := order.quantity + order.hidden_quantity
      let s := s.setLevel is_buy price_idx
        (remove_from_level_volume (s.getLevel is_buy price_idx) order)
      let s := s.list_remove is_buy price_idx loc.pool_idx
      let s := { s with order_pool := s.order_pool.free loc.pool_idx }
      let s :=
        if (s.getLevel is_buy price_idx).empty then
          if is_buy then
            Book.update_best_bid_after_remove
              { s with bid_level_count := s.bid_level_count - 1 } loc.price
          else
            Book.update_best_ask_after_remove
              { s with ask_level_count := s.ask_level_count - 1 } loc.price
        else s
      let s :=
        { s with
          order_index := fun j =>
            if j = order_id then { loc with active := false } else s.order_index j,
          active_order_count := s.active_order_count - 1 }
      s.emit_order_cancelled order_id cancelled_qty

/-- modify_order_internal (order_book.cpp lines 194-216): unknown or inactive
ids are silent no-ops; same price and a new quantity at most the current
visible quantity mutate the record in place and adjust the level volume by
the delta; every other case is cancel_order_internal followed by a direct
add_order_internal on the same side with user id 0. -/
def Book.modify_order_internal (s : Book) (order_id : Nat)
    (new_price new_quantity : Int) : Book :=
  if s.order_index_size ≤ order_id ∨ ¬ (s.order_index order_id).is_active then s
  else
    let loc := s.order_index order_id
    let price_idx := priceToIndex loc.price
    if MAX_PRICE_LEVELS ≤ price_idx then s
    else
      let order := s.poolGet loc.pool_idx
      if new_price = loc.price ∧ new_quantity ≤ order.quantity then
        let delta := new_quantity - order.quantity
        let s := s.setLevel loc.is_buy price_idx
          (adjust_level_volume (s.getLevel loc.is_buy price_idx) delta 0 order.is_aon)
        s.poolSet loc.pool_idx { order with quantity := new_quantity }
      else
        let is_buy := loc.is_buy
        let s := s.cancel_order_internal order_id
        s.add_order_internal order_id is_buy new_price new_quantity 0

/-- FIFO walk of one level inside calculate_available_quantity
(order_book.cpp lines 242-258 and 274-290): an AON order contributes its
full total only when it fits the remaining budget; a non-AON order
contributes min(remaining, total).  The fuel bounds the pointer chase; the
result is (available, remaining) after the level. -/
def calcAvailLevelWalk (s : Book) : Nat → Nat → Int → Int → Option (Int × Int)
  | fuel, curr, remaining, available =>
    if curr = NULL_INDEX ∨ ¬ 0 < remaining then some (available, remaining)
    else
      match fuel with
      | 0 => none
      | fuel + 1 =>
        let order := s.poolGet curr
        let order_total := order.quantity + order.hidden_quantity
        if order.is_aon then
          if order_total ≤ remaining then
            calcAvailLevelWalk s fuel order.next (remaining - order_total)
              (available + order_total)
          else
            calcAvailLevelWalk s fuel order.next remaining available
        else
          let fillable := min remaining order_total
          calcAvailLevelWalk s fuel order.next (remaining - fillable)
            (available + fillable)

/-- Ascending price loop of calculate_available_quantity for a buy
(order_book.cpp lines 230-260): walk ask levels from the best upward while
the price is within the limit and budget remains; an out-of-range index
breaks; a level without AON volume is short-circuited by its aggregate.
The steps argument is exactly the number of remaining loop iterations,
(limit - p + 1), so the recursion mirrors the for loop. -/
def calcAvailBuyLoop (s : Book) (limit_price : Int) (fuel : Nat) :
    Nat → Int → Int → Int → Option (Int × Int)
  | steps, p, remaining, available =>
    if ¬ (p ≤ limit_price ∧ 0 < remaining) then some (available, remaining)
    else
      match steps with
      | 0 => none
      | steps + 1 =>
        let idx := priceToIndex p
        if MAX_PRICE_LEVELS ≤ idx then some (available, remaining)
        else
          let level := s.ask_levels idx
          if level.empty then
            calcAvailBuyLoop s limit_price fuel steps (p + 1) remaining available
          else if level.total_aon_volume = 0 then
            let fillable := min remaining level.total_volume
            calcAvailBuyLoop s limit_price fuel steps (p + 1) (remaining - fillable)
              (available + fillable)
          else
            match calcAvailLevelWalk s fuel level.head remaining available with
            | none => none
            | some r =>
              calcAvailBuyLoop s limit_price fuel steps (p + 1) r.2 r.1

/-- Descending price loop of calculate_available_quantity for a sell
(order_book.cpp lines 262-292): walk bid levels from the best downward; an
out-of-range index continues to the next price. -/
def calcAvailSellLoop (s : Book) (limit_price : Int) (fuel : Nat) :
    Nat → Int → Int → Int → Option (Int × Int)
  | steps, p, remaining, available =>
    if ¬ (limit_price ≤ p ∧ 0 < remaining) then some (available, remaining)
    else
      match steps with
      | 0 => none
      | steps + 1 =>
        let idx := priceToIndex p
        if MAX_PRICE_LEVELS ≤ idx then
          calcAvailSellLoop s limit_price fuel steps (p - 1) remaining available
        else
          let level := s.bid_levels idx
          if level.empty then
            calcAvailSellLoop s limit_price fuel steps (p - 1) remaining available
          else if level.total_aon_volume = 0 then
            let fillable := min remaining level.total_volume
            calcAvailSellLoop s limit_price fuel steps (p - 1) (remaining - fillable)
              (available + fillable)
          else
            match calcAvailLevelWalk s fuel level.head remaining available with
            | none => none
            | some r =>
              calcAvailSellLoop s limit_price fuel steps (p - 1) r.2 r.1

/-- calculate_available_quantity (order_book.cpp lines 218-296): the
feasibility probe of FOK and AON, walking the opposite side from the best
price toward the limit without mutating anything.  The fuel only bounds the
intra-level pointer chases; the price loops receive their exact iteration
counts. -/
def Book.calculate_available_quantity (s : Book) (fuel : Nat) (is_buy : Bool)
    (limit_price incoming_qty : Int) : Option Int :=
  let best := if is_buy then s.best_ask else s.best_bid
  if is_buy ∧ best = INT64_MAX then some 0
  else if ¬ is_buy ∧ best < 0 then some 0
  else if is_buy then
    match calcAvailBuyLoop s limit_price fuel (limit_price - best + 1).toNat
        best incoming_qty 0 with
    | none => none
    | some r => some r.1
  else
    match calcAvailSellLoop s limit_price fuel (best - limit_price + 1).toNat
        best incoming_qty 0 with
    | none => none
    | some r => some r.1

/-- Iceberg refresh block of match_internal (order_book.cpp lines 369-387):
with the visible quantity of the pool record at curr already at zero and
hidden positive, compute the replenish chunk, remove the node and its
volumes from the level, set visible to the chunk and decrease hidden by it,
re-append the node at the FIFO tail, re-add its volumes and re-assert the
order-index pool_idx. -/
def Book.iceberg_refresh (s : Book) (is_bid : Bool) (li : Nat) (curr : Nat) : Book :=
  let book_order := s.poolGet curr
  let replenish :=
    min (if 0 < book_order.peak_size then book_order.peak_size else book_order.hidden_quantity)
      book_order.hidden_quantity
  let s := s.setLevel is_bid li
    (remove_from_level_volume (s.getLevel is_bid li) book_order)
  let s := s.list_remove is_bid li curr
  let s := s.poolSet curr
    { s.poolGet curr with
      quantity := replenish,
      hidden_quantity := book_order.hidden_quantity - replenish }
  let s := s.list_push_back is_bid li curr
  let s := s.setLevel is_bid li
    (add_to_level_volume (s.getLevel is_bid li) (s.poolGet curr))
  if book_order.order_id < s.order_index_size then
    { s with
      order_index := fun j =>
        if j = book_order.order_id then
          { s.order_index book_order.order_id with pool_idx := curr }
        else s.order_index j }
  else s

/-- Full-consumption block of match_internal (order_book.cpp lines 388-398):
detach the exhausted order, deactivate its index entry when the id is inside
the index, and free the pool slot. -/
def Book.consume_filled_order (s : Book) (is_bid : Bool) (li : Nat) (curr : Nat) : Book :=
  let book_order := s.poolGet curr
  let s := s.list_remove is_bid li curr
  let s :=
    if book_order.order_id < s.order_index_size then
      { s with
        order_index := fun j =>
          if j = book_order.order_id then
            { s.order_index book_order.order_id with active := false }
          else s.order_index j,
        active_order_count := s.active_order_count - 1 }
    else s
  { s with order_pool := s.order_pool.free curr }

/-- Inner FIFO walk of match_internal (order_book.cpp lines 345-402) over the
level at index li of the side opposite the aggressor (is_bid is that resting
side).  An AON book order larger than the remaining budget is skipped; any
other order trades min(remaining, visible) at the level price; a record
whose visible reaches zero is iceberg-refreshed when hidden remains and
consumed otherwise; the walk then follows the next pointer captured before
the trade. -/
def matchInnerWalk (order_id : Nat) (is_buy : Bool) (current_best : Int) (li : Nat) :
    Nat → Nat → Int → Nat → Book → Option (Book × Int × Nat)
  | fuel, curr, remaining_qty, trade_count, s =>
    if curr = NULL_INDEX ∨ ¬ 0 < remaining_qty then some (s, remaining_qty, trade_count)
    else
      match fuel with
      | 0 => none
      | fuel + 1 =>
        let book_order := s.poolGet curr
        let next_idx := book_order.next
        if book_order.is_aon ∧ remaining_qty < book_order.quantity + book_order.hidden_quantity then
          matchInnerWalk order_id is_buy current_best li fuel next_idx
            remaining_qty trade_count s
        else
          let trade_qty := min remaining_qty book_order.quantity
          let buy_id := if is_buy then order_id else book_order.order_id
          let sell_id := if is_buy then book_order.order_id else order_id
          let s := s.emit_trade buy_id sell_id current_best trade_qty
          let trade_count := trade_count + 1
          let remaining_qty := remaining_qty - trade_qty
          let s := s.setLevel (!is_buy) li
            (adjust_level_volume (s.getLevel (!is_buy) li) (-trade_qty) 0 book_order.is_aon)
          let s := s.poolSet curr { book_order with quantity := book_order.quantity - trade_qty }
          let s :=
            if book_order.quantity - trade_qty = 0 then
              if 0 < book_order.hidden_quantity then
                s.iceberg_refresh (!is_buy) li curr
              else
                s.consume_filled_order (!is_buy) li curr
            else s
          matchInnerWalk order_id is_buy current_best li fuel next_idx
            remaining_qty trade_count s

/-- One iteration of the outer price-time loop of match_internal
(order_book.cpp lines 331-414), entered after the loop conditions have
passed: a stale empty level only refreshes the best and keeps the stale
empty flag (the continue path of the source re-tests the loop condition
without recomputing it); otherwise the level FIFO is walked, a now-empty
level decrements the side level count and rescans the best, and the empty
flag is recomputed from the best price.  Returns the updated loop state
(remaining, trade count, empty flag, book), or none when the inner walk
runs out of fuel. -/
def matchLoopStep (order_id : Nat) (is_buy : Bool) (fuel : Nat)
    (remaining_qty : Int) (trade_count : Nat) (opposite_side_empty : Bool)
    (s : Book) : Option (Int × Nat × Bool × Book) :=
  let best_price := if is_buy then s.best_ask else s.best_bid
  let level_idx := priceToIndex best_price
  let level := s.getLevel (!is_buy) level_idx
  if level.empty then
    let s :=
      if is_buy then s.update_best_ask_after_remove best_price
      else s.update_best_bid_after_remove best_price
    some (remaining_qty, trade_count, opposite_side_empty, s)
  else
    let current_best := best_price
    match matchInnerWalk order_id is_buy current_best level_idx fuel
        level.head remaining_qty trade_count s with
    | none => none
    | some r =>
      let s := r.1
      let remaining_qty := r.2.1
      let trade_count := r.2.2
      let s :=
        if (s.getLevel (!is_buy) level_idx).empty then
          if is_buy then
            Book.update_best_ask_after_remove
              { s with ask_level_count := s.ask_level_count - 1 } current_best
          else
            Book.update_best_bid_after_remove
              { s with bid_level_count := s.bid_level_count - 1 } current_best
        else s
      let opposite_side_empty :=
        if is_buy then s.best_ask = INT64_MAX else s.best_bid < 0
      some (remaining_qty, trade_count, opposite_side_empty, s)

/-- Outer price-time loop of match_internal (order_book.cpp lines 323-415):
while budget remains and the opposite side is non-empty and the opposite
best does not pass the limit (with an out-of-range best index also ending
the loop), run one loop iteration via matchLoopStep and recurse on the
updated state; each iteration consumes one unit of fuel and none reports
fuel exhaustion, i.e. a loop that the source never exits. -/
def matchLoop (order_id : Nat) (is_buy : Bool) (price : Int) :
    Nat → Int → Nat → Bool → Book → Option (Book × Int × Nat)
  | fuel, remaining_qty, trade_count, opposite_side_empty, s =>
    if ¬ (0 < remaining_qty ∧ ¬ opposite_side_empty) then
      some (s, remaining_qty, trade_count)
    else
      let best_price := if is_buy then s.best_ask else s.best_bid
      if is_buy ∧ price < best_price then some (s, remaining_qty, trade_count)
      else if ¬ is_buy ∧ best_price < price then some (s, remaining_qty, trade_count)
      else if MAX_PRICE_LEVELS ≤ priceToIndex best_price then
        some (s, remaining_qty, trade_count)
      else
        match fuel with
        | 0 => none
        | fuel + 1 =>
          match matchLoopStep order_id is_buy fuel remaining_qty trade_count
              opposite_side_empty s with
          | none => none
          | some q => matchLoop order_id is_buy price fuel q.1 q.2.1 q.2.2.1 q.2.2.2

/-- Residual handling of match_internal (order_book.cpp lines 417-429): a GTC
residual rests as a plain order, an AON residual rests as an AON order, IOC
and FOK residuals are discarded. -/
def Book.match_rest_residual (s : Book) (order_id : Nat) (is_buy : Bool)
    (price remaining_qty : Int) (tif : TimeInForce) : Book :=
  if 0 < remaining_qty then
    match tif with
    | TimeInForce.GTC => s.add_order_internal order_id is_buy price remaining_qty 0
    | TimeInForce.AON => s.add_aon_internal order_id is_buy price remaining_qty 0
    | TimeInForce.IOC => s
    | TimeInForce.FOK => s
  else s

/-- match_internal (order_book.cpp lines 298-432): FOK aborts with no effect
when the probe finds less than the requested quantity; AON rests instead of
matching in that case; otherwise the price-time walk runs and the residual
is handled per time-in-force.  The result nests the final state with the
trade count; none means the source loops without returning on the given
fuel. -/
def Book.match_internal (s : Book) (fuel : Nat) (order_id : Nat) (is_buy : Bool)
    (price quantity : Int) (tif : TimeInForce) : Option (Book × Nat) :=
  let opposite_side_empty := if is_buy then s.best_ask = INT64_MAX else s.best_bid < 0
  if tif = TimeInForce.FOK then
    match s.calculate_available_quantity fuel is_buy price quantity with
    | none => none
    | some available =>
      if available < quantity then some (s, 0)
      else
        match matchLoop order_id is_buy price fuel quantity 0 opposite_side_empty s with
        | none => none
        | some r => some (r.1.match_rest_residual order_id is_buy price r.2.1 tif, r.2.2)
  else if tif = TimeInForce.AON then
    match s.calculate_available_quantity fuel is_buy price quantity with
    | none => none
    | some available =>
      if available < quantity then
        some (s.add_aon_internal order_id is_buy price quantity 0, 0)
      else
        match matchLoop order_id is_buy price fuel quantity 0 opposite_side_empty s with
        | none => none
        | some r => some (r.1.match_rest_residual order_id is_buy price r.2.1 tif, r.2.2)
  else
    match matchLoop order_id is_buy price fuel quantity 0 opposite_side_empty s with
    | none => none
    | some r => some (r.1.match_rest_residual order_id is_buy price r.2.1 tif, r.2.2)

/-- reset_internal (order_book.cpp lines 434-450): every level reset, both
bitmaps zeroed, sentinels and counters restored, pool free list rebuilt, and
the active flag cleared for every assigned index entry. -/
def Book.reset_internal (s : Book) : Book :=
  { s with
    bid_levels := fun _ => emptyLevel,
    ask_levels := fun _ => emptyLevel,
    bid_bitmap := fun _ => 0,
    ask_bitmap := fun _ => 0,
    best_bid := -1,
    best_ask := INT64_MAX,
    best_bid_word := -1,
    best_ask_word := 0,
    bid_level_count := 0,
    ask_level_count := 0,
    active_order_count := 0,
    order_pool := s.order_pool.reset,
    order_index := fun j =>
      if j ≤ s.max_order_id ∧ j < s.order_index_size then
        { s.order_index j with active := false }
      else s.order_index j }

/-- The aggressiveness classification of the public add_order (gateway.h
lines 1094-1096): a buy crossing at or through the best ask, or a sell at or
through the best bid. -/
def Book.is_aggressive_add (s : Book) (is_buy : Bool) (price : Int) : Bool :=
  if is_buy then decide (s.best_ask ≠ INT64_MAX ∧ s.best_ask ≤ price)
  else decide (0 ≤ s.best_bid ∧ price ≤ s.best_bid)

/-- Public add_order (gateway.h lines 1090-1103): an aggressive add is
dispatched to match_internal with TIF GTC; a non-aggressive add rests via
add_order_internal. -/
def Book.add_order (s : Book) (fuel : Nat) (order_id : Nat) (is_buy : Bool)
    (price quantity : Int) (user_id : Nat) : Option Book :=
  if s.is_aggressive_add is_buy price then
    (s.match_internal fuel order_id is_buy price quantity TimeInForce.GTC).map
      (fun r => r.1)
  else some (s.add_order_internal order_id is_buy price quantity user_id)

/-- Public match_order (gateway.h lines 1118-1122). -/
def Book.match_order (s : Book) (fuel : Nat) (order_id : Nat) (is_buy : Bool)
    (price quantity : Int) (tif : TimeInForce) : Option Book :=
  (s.match_internal fuel order_id is_buy price quantity tif).map (fun r => r.1)

/-- Public cancel_order (gateway.h lines 1124-1127). -/
def Book.cancel_order (s : Book) (order_id : Nat) : Book :=
  s.cancel_order_internal order_id

/-- Observer get_best_bid (gateway.h lines 1145-1148): the internal best bid
when non-negative, otherwise 0. -/
def Book.get_best_bid (s : Book) : Int :=
  if 0 ≤ s.best_bid then s.best_bid else 0

/-- Observer get_best_ask (gateway.h lines 1149-1152): the raw internal best
ask, INT64_MAX when no asks rest. -/
def Book.get_best_ask (s : Book) : Int := s.best_ask

/-- The freshly constructed book (gateway.h lines 1065-1082): empty levels,
zero bitmaps, sentinels, a pool of the given capacity with all slots free,
and an order index of INITIAL_ORDER_CAPACITY default entries. -/
def initBook (order_capacity : Nat) : Book :=
  { bid_levels := fun _ => emptyLevel,
    ask_levels := fun _ => emptyLevel,
    bid_bitmap := fun _ => 0,
    ask_bitmap := fun _ => 0,
    best_bid := -1,
    best_ask := INT64_MAX,
    best_bid_word := -1,
    best_ask_word := 0,
    bid_level_count := 0,
    ask_level_count := 0,
    order_pool :=
      { slots := fun _ => defaultOrder,
        free_list := List.range order_capacity,
        capacity := order_capacity },
    order_index := fun _ => defaultLoc,
    order_index_size := 5000000,
    active_order_count := 0,
    max_order_id := 0,
    use_ring_buffer := true,
    emit_accepts := true,
    emit_cancels := true,
    out := [],
    current_timestamp := 0,
    trades_executed := 0,
    messages_dropped := 0 }

/-! ## Projection lemmas for the state-update helpers. -/

theorem poolGet_poolSet (s : Book) (i : Nat) (o : Order) (j : Nat) :
    (s.poolSet i o).poolGet j = if j = i then o else s.poolGet j := rfl

theorem getLevel_setLevel (s : Book) (b : Bool) (li : Nat) (l : PriceLevel)
    (b2 : Bool) (j : Nat) :
    (s.setLevel b li l).getLevel b2 j =
      if b2 = b ∧ j = li then l else s.getLevel b2 j := by
  cases b <;> cases b2 <;> simp [Book.setLevel, Book.getLevel]

theorem poolGet_setLevel (s : Book) (b : Bool) (li : Nat) (l : PriceLevel) (j : Nat) :
    (s.setLevel b li l).poolGet j = s.poolGet j := by
  cases b <;> rfl

theorem getLevel_poolSet (s : Book) (i : Nat) (o : Order) (b : Bool) (j : Nat) :
    (s.poolSet i o).getLevel b j = s.getLevel b j := by
  cases b <;> rfl

/-! Frame lemmas: each state-update helper written as a record update of its
argument state, so that projections reduce by simp. -/

theorem setLevel_eq (s : Book) (b : Bool) (li : Nat) (l : PriceLevel) :
    s.setLevel b li l =
      { s with
        bid_levels := fun j => if b = true ∧ j = li then l else s.bid_levels j,
        ask_levels := fun j => if b = false ∧ j = li then l else s.ask_levels j } := by
  cases b <;> simp [Book.setLevel]

theorem poolSet_eq (s : Book) (i : Nat) (o : Order) :
    s.poolSet i o =
      { s with order_pool :=
          { s.order_pool with slots := fun j => if j = i then o else s.order_pool.slots j } } := rfl

theorem emit_trade_eq (s : Book) (buy_id sell_id : Nat) (price qty : Int) :
    s.emit_trade buy_id sell_id price qty =
      { s with
        trades_executed := s.trades_executed + 1,
        out := if s.use_ring_buffer then
            s.out ++ [OutputMsg.trade s.current_timestamp buy_id sell_id price qty]
          else s.out } := by
  unfold Book.emit_trade
  split_ifs with h <;> (try simp [h]) <;> (cases s; simp_all)

theorem emit_order_accepted_eq (s : Book) (oid : Nat) (ib : Bool) (price qty : Int) :
    s.emit_order_accepted oid ib price qty =
      { s with
        out := if s.emit_accepts ∧ s.use_ring_buffer then
            s.out ++ [OutputMsg.accepted s.current_timestamp oid ib price qty]
          else s.out } := by
  unfold Book.emit_order_accepted
  split_ifs with h1 h2 <;> (try simp_all) <;> (cases s; simp_all)

theorem emit_order_cancelled_eq (s : Book) (oid : Nat) (qty : Int) :
    s.emit_order_cancelled oid qty =
      { s with
        out := if s.emit_cancels ∧ s.use_ring_buffer then
            s.out ++ [OutputMsg.cancelled s.current_timestamp oid qty]
          else s.out } := by
  unfold Book.emit_order_cancelled
  split_ifs with h1 h2 <;> (try simp_all) <;> (cases s; simp_all)

theorem ensure_capacity_eq (s : Book) (oid : Nat) :
    s.ensure_capacity oid =
      { s with
        order_index := fun j =>
          if s.order_index_size ≤ oid ∧ s.order_index_size ≤ j ∧
              j < max (oid + 1) (2 * s.order_index_size) then defaultLoc
          else s.order_index j,
        order_index_size :=
          if s.order_index_size ≤ oid then max (oid + 1) (2 * s.order_index_size)
          else s.order_index_size,
        max_order_id := if s.max_order_id < oid then oid else s.max_order_id } := by
  unfold Book.ensure_capacity
  by_cases h1 : s.order_index_size ≤ oid <;> by_cases h2 : s.max_order_id < oid <;>
    simp [h1, h2]

theorem update_best_bid_after_add_eq (s : Book) (price : Int) :
    s.update_best_bid_after_add price =
      { s with
        bid_bitmap := bitmap_set s.bid_bitmap (priceToIndex price),
        best_bid := if s.best_bid < 0 ∨ s.best_bid < price then price else s.best_bid,
        best_bid_word :=
          if s.best_bid < 0 ∨ s.best_bid < price then (priceToIndex price / 64 : Nat)
          else s.best_bid_word } := by
  unfold Book.update_best_bid_after_add
  split_ifs with h <;> simp [h]

theorem update_best_bid_after_remove_eq (s : Book) (rp : Int) :
    s.update_best_bid_after_remove rp =
      (let bm := if (s.bid_levels (priceToIndex rp)).empty then
          bitmap_clear s.bid_bitmap (priceToIndex rp) else s.bid_bitmap
      let fh := bitmap_find_highest bm s.best_bid_word
      { s with
        bid_bitmap := bm,
        best_bid := if rp = s.best_bid then (if 0 ≤ fh then indexToPrice fh else -1)
          else s.best_bid,
        best_bid_word := if rp = s.best_bid then (if 0 ≤ fh then fh / 64 else -1)
          else s.best_bid_word }) := by
  unfold Book.update_best_bid_after_remove
  split_ifs with h1 h2 h3 <;> simp_all <;> split_ifs <;> simp_all

theorem update_best_ask_after_remove_eq (s : Book) (rp : Int) :
    s.update_best_ask_after_remove rp =
      (let bm := if (s.ask_levels (priceToIndex rp)).empty then
          bitmap_clear s.ask_bitmap (priceToIndex rp) else s.ask_bitmap
      let fl := bitmap_find_lowest bm BITMAP_WORDS s.best_ask_word
      { s with
        ask_bitmap := bm,
        best_ask := if rp = s.best_ask then (if 0 ≤ fl then indexToPrice fl else INT64_MAX)
          else s.best_ask,
        best_ask_word := if rp = s.best_ask then (if 0 ≤ fl then fl / 64 else 0)
          else s.best_ask_word }) := by
  unfold Book.update_best_ask_after_remove
  split_ifs with h1 h2 h3 <;> simp_all <;> split_ifs <;> simp_all

theorem list_push_back_getLevel_self (s : Book) (b : Bool) (li i : Nat) :
    (s.list_push_back b li i).getLevel b li =
      { head := if (s.getLevel b li).tail = NULL_INDEX then i else (s.getLevel b li).head,
        tail := i, count := (s.getLevel b li).count + 1,
        total_volume := (s.getLevel b li).total_volume,
        total_visible_volume := (s.getLevel b li).total_visible_volume,
        total_aon_volume := (s.getLevel b li).total_aon_volume,
        total_non_aon_volume := (s.getLevel b li).total_non_aon_volume } := by
  unfold Book.list_push_back
  by_cases h : (s.getLevel b li).tail = NULL_INDEX <;>
    simp [h, getLevel_setLevel, getLevel_poolSet]

theorem list_push_back_getLevel_other (s : Book) (b : Bool) (li i : Nat)
    (b2 : Bool) (j : Nat) (h : ¬ (b2 = b ∧ j = li)) :
    (s.list_push_back b li i).getLevel b2 j = s.getLevel b2 j := by
  unfold Book.list_push_back
  by_cases htail : (s.getLevel b li).tail = NULL_INDEX <;>
    simp [htail, getLevel_setLevel, getLevel_poolSet, h]

theorem list_push_back_frame (s : Book) (b : Bool) (li i : Nat) :
    (s.list_push_back b li i).order_index = s.order_index ∧
    (s.list_push_back b li i).order_index_size = s.order_index_size ∧
    (s.list_push_back b li i).bid_bitmap = s.bid_bitmap ∧
    (s.list_push_back b li i).ask_bitmap = s.ask_bitmap ∧
    (s.list_push_back b li i).bid_level_count = s.bid_level_count ∧
    (s.list_push_back b li i).ask_level_count = s.ask_level_count ∧
    (s.list_push_back b li i).active_order_count = s.active_order_count ∧
    (s.list_push_back b li i).best_bid = s.best_bid ∧
    (s.list_push_back b li i).best_ask = s.best_ask ∧
    (s.list_push_back b li i).trades_executed = s.trades_executed ∧
    (s.list_push_back b li i).out = s.out ∧
    (s.list_push_back b li i).emit_accepts = s.emit_accepts ∧
    (s.list_push_back b li i).emit_cancels = s.emit_cancels ∧
    (s.list_push_back b li i).use_ring_buffer = s.use_ring_buffer ∧
    (s.list_push_back b li i).current_timestamp = s.current_timestamp := by
  unfold Book.list_push_back
  by_cases h : (s.getLevel b li).tail = NULL_INDEX <;>
    simp [h, setLevel_eq, poolSet_eq]

theorem list_push_back_poolGet_stable (s : Book) (b : Bool) (li i j : Nat) :
    ((s.list_push_back b li i).poolGet j).order_id = (s.poolGet j).order_id ∧
    ((s.list_push_back b li i).poolGet j).price = (s.poolGet j).price ∧
    ((s.list_push_back b li i).poolGet j).quantity = (s.poolGet j).quantity ∧
    ((s.list_push_back b li i).poolGet j).hidden_quantity = (s.poolGet j).hidden_quantity ∧
    ((s.list_push_back b li i).poolGet j).peak_size = (s.poolGet j).peak_size ∧
    ((s.list_push_back b li i).poolGet j).user_id_low = (s.poolGet j).user_id_low ∧
    ((s.list_push_back b li i).poolGet j).buy = (s.poolGet j).buy ∧
    ((s.list_push_back b li i).poolGet j).aon = (s.poolGet j).aon := by
  unfold Book.list_push_back
  by_cases h : (s.getLevel b li).tail = NULL_INDEX <;>
    simp [h, poolGet_poolSet, poolGet_setLevel] <;> split_ifs <;>
    (try subst_vars) <;> simp

theorem list_push_back_poolGet_order_id (s : Book) (b : Bool) (li i j : Nat) :
    ((s.list_push_back b li i).poolGet j).order_id = (s.poolGet j).order_id :=
  (list_push_back_poolGet_stable s b li i j).1

theorem list_push_back_poolGet_price (s : Book) (b : Bool) (li i j : Nat) :
    ((s.list_push_back b li i).poolGet j).price = (s.poolGet j).price :=
  (list_push_back_poolGet_stable s b li i j).2.1

theorem list_push_back_poolGet_quantity (s : Book) (b : Bool) (li i j : Nat) :
    ((s.list_push_back b li i).poolGet j).quantity = (s.poolGet j).quantity :=
  (list_push_back_poolGet_stable s b li i j).2.2.1

theorem list_push_back_poolGet_hidden_quantity (s : Book) (b : Bool) (li i j : Nat) :
    ((s.list_push_back b li i).poolGet j).hidden_quantity = (s.poolGet j).hidden_quantity :=
  (list_push_back_poolGet_stable s b li i j).2.2.2.1

theorem list_push_back_poolGet_peak_size (s : Book) (b : Bool) (li i j : Nat) :
    ((s.list_push_back b li i).poolGet j).peak_size = (s.poolGet j).peak_size :=
  (list_push_back_poolGet_stable s b li i j).2.2.2.2.1

theorem list_push_back_poolGet_user_id_low (s : Book) (b : Bool) (li i j : Nat) :
    ((s.list_push_back b li i).poolGet j).user_id_low = (s.poolGet j).user_id_low :=
  (list_push_back_poolGet_stable s b li i j).2.2.2.2.2.1

theorem list_push_back_poolGet_buy (s : Book) (b : Bool) (li i j : Nat) :
    ((s.list_push_back b li i).poolGet j).buy = (s.poolGet j).buy :=
  (list_push_back_poolGet_stable s b li i j).2.2.2.2.2.2.1

theorem list_push_back_poolGet_aon (s : Book) (b : Bool) (li i j : Nat) :
    ((s.list_push_back b li i).poolGet j).aon = (s.poolGet j).aon :=
  (list_push_back_poolGet_stable s b li i j).2.2.2.2.2.2.2

theorem list_push_back_poolGet_self_prev (s : Book) (b : Bool) (li i : Nat) :
    ((s.list_push_back b li i).poolGet i).prev = (s.getLevel b li).tail := by
  unfold Book.list_push_back
  by_cases h : (s.getLevel b li).tail = NULL_INDEX
  · simp [h, poolGet_poolSet, poolGet_setLevel]
  · by_cases hti : (s.getLevel b li).tail = i
    · have hiN : ¬ i = NULL_INDEX := by rw [hti] at h; exact h
      simp [h, hti, hiN, poolGet_poolSet, poolGet_setLevel]
    · have hit : ¬ i = (s.getLevel b li).tail := fun hh => hti hh.symm
      simp [h, hti, hit, poolGet_poolSet, poolGet_setLevel]

theorem list_push_back_poolGet_self_next (s : Book) (b : Bool) (li i : Nat) :
    ((s.list_push_back b li i).poolGet i).next =
      if (s.getLevel b li).tail = i ∧ (s.getLevel b li).tail ≠ NULL_INDEX then i
      else NULL_INDEX := by
  unfold Book.list_push_back
  by_cases h : (s.getLevel b li).tail = NULL_INDEX
  · simp [h, poolGet_poolSet, poolGet_setLevel]
  · by_cases hti : (s.getLevel b li).tail = i
    · have hiN : ¬ i = NULL_INDEX := by rw [hti] at h; exact h
      simp [h, hti, hiN, poolGet_poolSet, poolGet_setLevel]
    · have hit : ¬ i = (s.getLevel b li).tail := fun hh => hti hh.symm
      simp [h, hti, hit, poolGet_poolSet, poolGet_setLevel]

theorem list_remove_getLevel_self (s : Book) (b : Bool) (li i : Nat) :
    (s.list_remove b li i).getLevel b li =
      { head := if (s.poolGet i).prev = NULL_INDEX then (s.poolGet i).next
          else (s.getLevel b li).head,
        tail := if (s.poolGet i).next = NULL_INDEX then (s.poolGet i).prev
          else (s.getLevel b li).tail,
        count := (s.getLevel b li).count - 1,
        total_volume := (s.getLevel b li).total_volume,
        total_visible_volume := (s.getLevel b li).total_visible_volume,
        total_aon_volume := (s.getLevel b li).total_aon_volume,
        total_non_aon_volume := (s.getLevel b li).total_non_aon_volume } := by
  unfold Book.list_remove
  by_cases h1 : (s.poolGet i).prev = NULL_INDEX <;>
    by_cases h2 : (s.poolGet i).next = NULL_INDEX <;>
      simp [h1, h2, getLevel_setLevel, getLevel_poolSet, poolGet_poolSet, poolGet_setLevel]

theorem list_remove_getLevel_other (s : Book) (b : Bool) (li i : Nat)
    (b2 : Bool) (j : Nat) (h : ¬ (b2 = b ∧ j = li)) :
    (s.list_remove b li i).getLevel b2 j = s.getLevel b2 j := by
  unfold Book.list_remove
  by_cases h1 : (s.poolGet i).prev = NULL_INDEX <;>
    by_cases h2 : (s.poolGet i).next = NULL_INDEX <;>
      simp [h1, h2, getLevel_setLevel, getLevel_poolSet, poolGet_poolSet, poolGet_setLevel, h]

theorem list_remove_frame (s : Book) (b : Bool) (li i : Nat) :
    (s.list_remove b li i).order_index = s.order_index ∧
    (s.list_remove b li i).order_index_size = s.order_index_size ∧
    (s.list_remove b li i).bid_bitmap = s.bid_bitmap ∧
    (s.list_remove b li i).ask_bitmap = s.ask_bitmap ∧
    (s.list_remove b li i).bid_level_count = s.bid_level_count ∧
    (s.list_remove b li i).ask_level_count = s.ask_level_count ∧
    (s.list_remove b li i).active_order_count = s.active_order_count ∧
    (s.list_remove b li i).best_bid = s.best_bid ∧
    (s.list_remove b li i).best_ask = s.best_ask ∧
    (s.list_remove b li i).trades_executed = s.trades_executed ∧
    (s.list_remove b li i).out = s.out ∧
    (s.list_remove b li i).emit_accepts = s.emit_accepts ∧
    (s.list_remove b li i).emit_cancels = s.emit_cancels ∧
    (s.list_remove b li i).use_ring_buffer = s.use_ring_buffer ∧
    (s.list_remove b li i).current_timestamp = s.current_timestamp := by
  unfold Book.list_remove
  by_cases h1 : (s.poolGet i).prev = NULL_INDEX <;>
    by_cases h2 : (s.poolGet i).next = NULL_INDEX <;>
      simp [h1, h2, setLevel_eq, poolSet_eq]

theorem list_push_back_trades_executed (s : Book) (b : Bool) (li i : Nat) :
    (s.list_push_back b li i).trades_executed = s.trades_executed :=
  (list_push_back_frame s b li i).2.2.2.2.2.2.2.2.2.1

theorem list_push_back_out (s : Book) (b : Bool) (li i : Nat) :
    (s.list_push_back b li i).out = s.out :=
  (list_push_back_frame s b li i).2.2.2.2.2.2.2.2.2.2.1

theorem list_remove_trades_executed (s : Book) (b : Bool) (li i : Nat) :
    (s.list_remove b li i).trades_executed = s.trades_executed :=
  (list_remove_frame s b li i).2.2.2.2.2.2.2.2.2.1

theorem list_remove_out (s : Book) (b : Bool) (li i : Nat) :
    (s.list_remove b li i).out = s.out :=
  (list_remove_frame s b li i).2.2.2.2.2.2.2.2.2.2.1

theorem update_best_ask_after_add_eq (s : Book) (price : Int) :
    s.update_best_ask_after_add price =
      { s with
        ask_bitmap := bitmap_set s.ask_bitmap (priceToIndex price),
        best_ask := if s.best_ask = INT64_MAX ∨ price < s.best_ask then price else s.best_ask,
        best_ask_word :=
          if s.best_ask = INT64_MAX ∨ price < s.best_ask then (priceToIndex price / 64 : Nat)
          else s.best_ask_word } := by
  unfold Book.update_best_ask_after_add
  split_ifs with h <;> simp [h]

theorem setLevel_order_index (s : Book) (b : Bool) (li : Nat) (l : PriceLevel) :
    (s.setLevel b li l).order_index = s.order_index := by
  cases b <;> rfl

theorem list_push_back_order_index (s : Book) (b : Bool) (li i : Nat) :
    (s.list_push_back b li i).order_index = s.order_index :=
  (list_push_back_frame s b li i).1

theorem emit_order_accepted_poolGet (s : Book) (oid : Nat) (ib : Bool)
    (price qty : Int) (j : Nat) :
    (s.emit_order_accepted oid ib price qty).poolGet j = s.poolGet j := by
  simp [emit_order_accepted_eq, Book.poolGet]

theorem emit_order_accepted_order_index (s : Book) (oid : Nat) (ib : Bool)
    (price qty : Int) :
    (s.emit_order_accepted oid ib price qty).order_index = s.order_index := by
  simp [emit_order_accepted_eq]

theorem ensure_capacity_poolGet (s : Book) (oid : Nat) (j : Nat) :
    (s.ensure_capacity oid).poolGet j = s.poolGet j := by
  simp [ensure_capacity_eq, Book.poolGet]

theorem update_best_bid_after_add_poolGet (s : Book) (price : Int) (j : Nat) :
    (s.update_best_bid_after_add price).poolGet j = s.poolGet j := by
  simp [update_best_bid_after_add_eq, Book.poolGet]

theorem update_best_ask_after_add_poolGet (s : Book) (price : Int) (j : Nat) :
    (s.update_best_ask_after_add price).poolGet j = s.poolGet j := by
  simp [update_best_ask_after_add_eq, Book.poolGet]

theorem update_best_bid_after_add_order_index (s : Book) (price : Int) :
    (s.update_best_bid_after_add price).order_index = s.order_index := by
  simp [update_best_bid_after_add_eq]

theorem update_best_ask_after_add_order_index (s : Book) (price : Int) :
    (s.update_best_ask_after_add price).order_index = s.order_index := by
  simp [update_best_ask_after_add_eq]

theorem poolGet_def (s : Book) (j : Nat) : s.poolGet j = s.order_pool.slots j := rfl

theorem poolSet_slots (s : Book) (i : Nat) (o : Order) (j : Nat) :
    (s.poolSet i o).order_pool.slots j = if j = i then o else s.order_pool.slots j := rfl

theorem emit_order_accepted_order_pool (s : Book) (oid : Nat) (ib : Bool)
    (price qty : Int) :
    (s.emit_order_accepted oid ib price qty).order_pool = s.order_pool := by
  simp [emit_order_accepted_eq]

theorem ensure_capacity_order_pool (s : Book) (oid : Nat) :
    (s.ensure_capacity oid).order_pool = s.order_pool := by
  simp [ensure_capacity_eq]

theorem update_best_bid_after_add_order_pool (s : Book) (price : Int) :
    (s.update_best_bid_after_add price).order_pool = s.order_pool := by
  simp [update_best_bid_after_add_eq]

theorem update_best_ask_after_add_order_pool (s : Book) (price : Int) :
    (s.update_best_ask_after_add price).order_pool = s.order_pool := by
  simp [update_best_ask_after_add_eq]

theorem setLevel_order_pool (s : Book) (b : Bool) (li : Nat) (l : PriceLevel) :
    (s.setLevel b li l).order_pool = s.order_pool := by
  cases b <;> rfl

theorem list_push_back_slots_order_id (s : Book) (b : Bool) (li i j : Nat) :
    ((s.list_push_back b li i).order_pool.slots j).order_id =
      (s.order_pool.slots j).order_id :=
  list_push_back_poolGet_order_id s b li i j

theorem list_push_back_slots_price (s : Book) (b : Bool) (li i j : Nat) :
    ((s.list_push_back b li i).order_pool.slots j).price =
      (s.order_pool.slots j).price :=
  list_push_back_poolGet_price s b li i j

theorem list_push_back_slots_quantity (s : Book) (b : Bool) (li i j : Nat) :
    ((s.list_push_back b li i).order_pool.slots j).quantity =
      (s.order_pool.slots j).quantity :=
  list_push_back_poolGet_quantity s b li i j

theorem list_push_back_slots_hidden_quantity (s : Book) (b : Bool) (li i j : Nat) :
    ((s.list_push_back b li i).order_pool.slots j).hidden_quantity =
      (s.order_pool.slots j).hidden_quantity :=
  list_push_back_poolGet_hidden_quantity s b li i j

theorem list_push_back_slots_peak_size (s : Book) (b : Bool) (li i j : Nat) :
    ((s.list_push_back b li i).order_pool.slots j).peak_size =
      (s.order_pool.slots j).peak_size :=
  list_push_back_poolGet_peak_size s b li i j

theorem list_push_back_slots_user_id_low (s : Book) (b : Bool) (li i j : Nat) :
    ((s.list_push_back b li i).order_pool.slots j).user_id_low =
      (s.order_pool.slots j).user_id_low :=
  list_push_back_poolGet_user_id_low s b li i j

theorem list_push_back_slots_buy (s : Book) (b : Bool) (li i j : Nat) :
    ((s.list_push_back b li i).order_pool.slots j).buy =
      (s.order_pool.slots j).buy :=
  list_push_back_poolGet_buy s b li i j

theorem list_push_back_slots_aon (s : Book) (b : Bool) (li i j : Nat) :
    ((s.list_push_back b li i).order_pool.slots j).aon =
      (s.order_pool.slots j).aon :=
  list_push_back_poolGet_aon s b li i j

theorem order_index_update_getLevel (s : Book) (f : Nat → OrderLocation)
    (b : Bool) (li : Nat) :
    ({ s with order_index := f }).getLevel b li = s.getLevel b li := by
  cases b <;> rfl

theorem order_index_update_poolGet (s : Book) (f : Nat → OrderLocation) (j : Nat) :
    ({ s with order_index := f }).poolGet j = s.poolGet j := rfl

/-! ## Claim theorems. -/

/-- C1: the cross-order invariant is violated by the code.  Two public match
operations (an AON sell of 20 at price 100 resting on the empty book, then
an AON buy of 5 at price 100 whose feasibility probe fails, so it rests as a
bid at 100) return with best_bid = best_ask = 100, a crossed book: the
claimed invariant best_bid < best_ask does not hold at the return of a
public operation.  The source itself treats this state as a bug (the
CRITICAL cross diagnostic of add_order_internal, order_book.cpp lines
53-56). -/
theorem C1_crossed_book_after_public_ops :
    (((initBook 4).match_order 10 2 false 100 20 TimeInForce.AON).bind
      (fun b => b.match_order 10 3 true 100 5 TimeInForce.AON)).map
      (fun b => (b.best_bid, b.best_ask, decide (b.best_bid < b.best_ask)))
      = some (100, 100, false) := by decide

/-- C2 counterexample: a modify that moves a resting ask from 200 to 90
while the best bid is 100 would cross; the claim says such a re-add is
dispatched to matching, but the code rests it via add_order_internal with
no aggressiveness check: no trade is executed, the order rests at 90, and
the book is left crossed (best_ask = 90 at or below best_bid = 100). -/
theorem C2_crossing_modify_does_not_match :
    (let base := (((initBook 8).add_order_internal 1 true 100 10 0).add_order_internal
        5 false 201 4 0).add_order_internal 2 false 200 5 0
    let t := base.modify_order_internal 2 90 5
    t.trades_executed = 0 ∧ (t.ask_levels 90).count = 1 ∧
      t.best_ask = 90 ∧ t.best_bid = 100) := by decide

/-- C6 counterexample: on the freshly constructed book, which has no resting
bids, the best-bid observer get_best_bid returns 0 and not the no-bid
sentinel -1 claimed by the specification. -/
theorem C6_best_bid_observer_returns_zero :
    (initBook 4).get_best_bid = 0 ∧ (initBook 4).get_best_bid ≠ -1 := by decide

/-- C6 amended: with no resting bids the internal best bid holds the
sentinel -1, but the public best-bid observer clamps negative values to 0;
with no resting asks the best-ask observer returns INT64_MAX.  Stated for
the state after reset_internal, which has no resting orders on either
side. -/
theorem C6_sentinel_observers (s : Book) :
    s.reset_internal.best_bid = -1 ∧ s.reset_internal.get_best_bid = 0 ∧
    s.reset_internal.best_ask = INT64_MAX ∧
    s.reset_internal.get_best_ask = INT64_MAX := by
  exact ⟨rfl, rfl, rfl, rfl⟩

/-- C7 counterexample: modify with new quantity 0 at the same price takes the
in-place path and leaves a record with visible 0 and hidden 0 still linked
at the head of the price-100 bid FIFO, still active in the order index: the
claimed invariant (a both-zero record must have been freed) is violated. -/
theorem C7_zero_quantity_record_stays_linked :
    (let t := ((initBook 4).add_order_internal 1 true 100 5 0).modify_order_internal
        1 100 0
    (t.poolGet (t.order_index 1).pool_idx).quantity = 0 ∧
      (t.poolGet (t.order_index 1).pool_idx).hidden_quantity = 0 ∧
      (t.order_index 1).active = true ∧
      (t.bid_levels 100).head = (t.order_index 1).pool_idx ∧
      (t.bid_levels 100).count = 1) := by decide

/-- C8 counterexample: with an ask of 5 resting at 100, a public add of a buy
at the out-of-range price 33554432 (= P_MAX, price_to_index = P_MAX ≥
MAX_PRICE_LEVELS) is classified aggressive and dispatched to matching: it
trades 3 at 100 and changes the book, so an out-of-range add is not always
a silent no-op. -/
theorem C8_aggressive_out_of_range_add_trades :
    MAX_PRICE_LEVELS ≤ priceToIndex 33554432 ∧
    (((initBook 4).add_order 10 2 false 100 5 0).bind
      (fun b => b.add_order 10 9 true 33554432 3 0)).map
      (fun b => (b.trades_executed, (b.ask_levels 100).total_volume))
      = some (1, 2) := by decide

/-- C4: an FOK match whose feasibility probe finds available < qty is a
complete no-op: match_internal returns the state unchanged (every component,
including the event stream and all counters) with zero trades, for every
book state, every fuel and every probe outcome below the requested
quantity. -/
theorem C4_fok_infeasible_noop (s : Book) (fuel oid : Nat) (is_buy : Bool)
    (price qty available : Int)
    (hav : s.calculate_available_quantity fuel is_buy price qty = some available)
    (hlt : available < qty) :
    s.match_internal fuel oid is_buy price qty TimeInForce.FOK = some (s, 0) := by
  unfold Book.match_internal
  simp [hav, hlt]

/-- C4 witness: a concrete infeasible FOK (buy 5 at 100 against a lone AON
ask of 20, whose probe yields 0) returns the state unchanged with zero
trades. -/
theorem C4_fok_infeasible_noop_witness :
    ((initBook 4).add_aon_internal 2 false 100 20 0).match_internal 10 9 true 100 5
      TimeInForce.FOK = some ((initBook 4).add_aon_internal 2 false 100 20 0, 0) :=
  C4_fok_infeasible_noop ((initBook 4).add_aon_internal 2 false 100 20 0)
    10 9 true 100 5 0 (by decide) (by decide)

/-- C8 amended: the internal adds reject out-of-range prices as silent
no-ops, a non-aggressive public add with an out-of-range price is a silent
no-op, and cancel or modify of an unknown or inactive id is a silent
no-op. -/
theorem C8_silent_noop_semantics (s : Book) (fuel oid : Nat) (ib : Bool)
    (price tq vq q np nq : Int) (uid : Nat) :
    (MAX_PRICE_LEVELS ≤ priceToIndex price →
      s.add_order_internal oid ib price q uid = s ∧
      s.add_iceberg_internal oid ib price tq vq uid = s ∧
      s.add_aon_internal oid ib price q uid = s ∧
      (s.is_aggressive_add ib price = false →
        s.add_order fuel oid ib price q uid = some s)) ∧
    ((s.order_index_size ≤ oid ∨ (s.order_index oid).is_active = false) →
      s.cancel_order_internal oid = s ∧ s.modify_order_internal oid np nq = s) := by
  constructor
  · intro h
    have h1 : s.add_order_internal oid ib price q uid = s := by
      unfold Book.add_order_internal
      rw [if_pos h]
    refine ⟨h1, ?_, ?_, ?_⟩
    · unfold Book.add_iceberg_internal
      rw [if_pos h]
    · unfold Book.add_aon_internal
      rw [if_pos h]
    · intro hna
      unfold Book.add_order
      simp [hna, h1]
  · intro h
    have hg : s.order_index_size ≤ oid ∨ ¬ (s.order_index oid).is_active = true := by
      rcases h with h | h
      · exact Or.inl h
      · exact Or.inr (by simp [OrderLocation.is_active] at h ⊢; exact h)
    constructor
    · unfold Book.cancel_order_internal
      rw [if_pos hg]
    · unfold Book.modify_order_internal
      rw [if_pos hg]

/-- C8 witness: the internal add at the out-of-range price P_MAX and the
cancel of the never-used id 7 both leave the fresh book unchanged. -/
theorem C8_silent_noop_semantics_witness :
    (initBook 4).add_order_internal 1 true 33554432 5 0 = initBook 4 ∧
    (initBook 4).cancel_order_internal 7 = initBook 4 := by
  refine ⟨((C8_silent_noop_semantics (initBook 4) 10 1 true 33554432 0 0 5 0 0 0).1
      (by decide)).1,
    ((C8_silent_noop_semantics (initBook 4) 10 7 true 0 0 0 0 0 0 0).2
      (by decide)).1⟩

/-- C7 amended: modify with new quantity 0 at the unchanged price takes the
in-place path and leaves a zero-quantity record resting: the pool record
keeps visible 0 and hidden 0, the order-index entry is unchanged (still
active), the FIFO of the level (head, tail, count) is untouched and the
active order count does not drop, so the record is not freed. -/
theorem C7_zero_quantity_modify_rests (s : Book) (oid : Nat)
    (hsz : oid < s.order_index_size)
    (hact : (s.order_index oid).is_active = true)
    (hrange : priceToIndex (s.order_index oid).price < MAX_PRICE_LEVELS)
    (hq : 0 ≤ (s.poolGet (s.order_index oid).pool_idx).quantity)
    (hh : (s.poolGet (s.order_index oid).pool_idx).hidden_quantity = 0) :
    (let t := s.modify_order_internal oid (s.order_index oid).price 0
    (t.poolGet (s.order_index oid).pool_idx).quantity = 0 ∧
      (t.poolGet (s.order_index oid).pool_idx).hidden_quantity = 0 ∧
      t.order_index oid = s.order_index oid ∧
      (t.getLevel (s.order_index oid).is_buy
        (priceToIndex (s.order_index oid).price)).head =
        (s.getLevel (s.order_index oid).is_buy
          (priceToIndex (s.order_index oid).price)).head ∧
      (t.getLevel (s.order_index oid).is_buy
        (priceToIndex (s.order_index oid).price)).tail =
        (s.getLevel (s.order_index oid).is_buy
          (priceToIndex (s.order_index oid).price)).tail ∧
      (t.getLevel (s.order_index oid).is_buy
        (priceToIndex (s.order_index oid).price)).count =
        (s.getLevel (s.order_index oid).is_buy
          (priceToIndex (s.order_index oid).price)).count ∧
      t.active_order_count = s.active_order_count) := by
  have hguard : ¬ (s.order_index_size ≤ oid ∨ ¬ (s.order_index oid).is_active = true) := by
    push_neg
    exact ⟨by omega, hact⟩
  unfold Book.modify_order_internal
  rw [if_neg hguard, if_neg (by omega)]
  rw [if_pos ⟨rfl, hq⟩]
  simp only [Book.poolGet] at hh
  cases hb : (s.order_index oid).is_buy <;>
    simp [hb, poolGet_poolSet, poolGet_setLevel, getLevel_setLevel, getLevel_poolSet,
      adjust_level_volume, hh, setLevel_eq, Book.poolSet, Book.poolGet, Book.getLevel]

/-- C7 witness: modify(1, 100, 0) on a resting bid of 5 at 100 leaves the
zero-quantity record resting with the FIFO and counts untouched. -/
theorem C7_zero_quantity_modify_rests_witness :
    (let s := (initBook 4).add_order_internal 1 true 100 5 0
    let t := s.modify_order_internal 1 (s.order_index 1).price 0
    (t.poolGet (s.order_index 1).pool_idx).quantity = 0 ∧
      (t.poolGet (s.order_index 1).pool_idx).hidden_quantity = 0 ∧
      t.order_index 1 = s.order_index 1 ∧
      (t.getLevel (s.order_index 1).is_buy (priceToIndex (s.order_index 1).price)).head =
        (s.getLevel (s.order_index 1).is_buy (priceToIndex (s.order_index 1).price)).head ∧
      (t.getLevel (s.order_index 1).is_buy (priceToIndex (s.order_index 1).price)).tail =
        (s.getLevel (s.order_index 1).is_buy (priceToIndex (s.order_index 1).price)).tail ∧
      (t.getLevel (s.order_index 1).is_buy (priceToIndex (s.order_index 1).price)).count =
        (s.getLevel (s.order_index 1).is_buy (priceToIndex (s.order_index 1).price)).count ∧
      t.active_order_count = s.active_order_count) :=
  C7_zero_quantity_modify_rests ((initBook 4).add_order_internal 1 true 100 5 0) 1
    (by decide) (by decide) (by decide) (by decide) (by decide)

/-- The record resting after an in-range add_order_internal: the order-index
entry for the id is active with the given price and side, and the pool slot
it references carries exactly the plain-order fields written by the add
(zero hidden, zero peak, non-AON, the given user id). -/
theorem add_order_internal_fields (u : Book) (oid : Nat) (ib : Bool) (np nq : Int)
    (uid : Nat) (h : priceToIndex np < MAX_PRICE_LEVELS) :
    (let v := u.add_order_internal oid ib np nq uid
    (v.order_index oid).active = true ∧
      (v.order_index oid).price = np ∧
      (v.order_index oid).buy = ib ∧
      (v.poolGet (v.order_index oid).pool_idx).order_id = oid ∧
      (v.poolGet (v.order_index oid).pool_idx).price = np ∧
      (v.poolGet (v.order_index oid).pool_idx).quantity = nq ∧
      (v.poolGet (v.order_index oid).pool_idx).hidden_quantity = 0 ∧
      (v.poolGet (v.order_index oid).pool_idx).peak_size = 0 ∧
      (v.poolGet (v.order_index oid).pool_idx).user_id_low = uid ∧
      (v.poolGet (v.order_index oid).pool_idx).buy = ib ∧
      (v.poolGet (v.order_index oid).pool_idx).aon = false) := by
  unfold Book.add_order_internal
  rw [if_neg (by omega)]
  by_cases hwe : (u.getLevel ib (priceToIndex np)).empty = true <;> cases ib <;>
    simp [hwe, poolGet_def, poolSet_slots, emit_order_accepted_order_pool,
      emit_order_accepted_order_index, update_best_bid_after_add_order_pool,
      update_best_ask_after_add_order_pool, update_best_bid_after_add_order_index,
      update_best_ask_after_add_order_index, ensure_capacity_order_pool,
      setLevel_order_pool, setLevel_order_index, list_push_back_order_index,
      list_push_back_slots_order_id, list_push_back_slots_price,
      list_push_back_slots_quantity, list_push_back_slots_hidden_quantity,
      list_push_back_slots_peak_size, list_push_back_slots_user_id_low,
      list_push_back_slots_buy, list_push_back_slots_aon]

/-- C10: when modify takes the cancel-then-add path (new price differs or
the new quantity exceeds the current visible quantity) on an active order at
an in-range old and new price, the re-added record is a plain limit order
carrying only new_qty: hidden 0, peak 0, AON flag false and owning user id
0, on the same side, under the same id. -/
theorem C10_modify_discards_extended_fields (s : Book) (oid : Nat) (np nq : Int)
    (hsz : oid < s.order_index_size)
    (hact : (s.order_index oid).is_active = true)
    (hold : priceToIndex (s.order_index oid).price < MAX_PRICE_LEVELS)
    (hpath : ¬ (np = (s.order_index oid).price ∧
      nq ≤ (s.poolGet (s.order_index oid).pool_idx).quantity))
    (hnew : priceToIndex np < MAX_PRICE_LEVELS) :
    (let t := s.modify_order_internal oid np nq
    (t.order_index oid).active = true ∧
      (t.order_index oid).price = np ∧
      (t.order_index oid).buy = (s.order_index oid).is_buy ∧
      (t.poolGet (t.order_index oid).pool_idx).order_id = oid ∧
      (t.poolGet (t.order_index oid).pool_idx).price = np ∧
      (t.poolGet (t.order_index oid).pool_idx).quantity = nq ∧
      (t.poolGet (t.order_index oid).pool_idx).hidden_quantity = 0 ∧
      (t.poolGet (t.order_index oid).pool_idx).peak_size = 0 ∧
      (t.poolGet (t.order_index oid).pool_idx).user_id_low = 0 ∧
      (t.poolGet (t.order_index oid).pool_idx).buy = (s.order_index oid).is_buy ∧
      (t.poolGet (t.order_index oid).pool_idx).aon = false) := by
  have hguard : ¬ (s.order_index_size ≤ oid ∨ ¬ (s.order_index oid).is_active = true) := by
    push_neg
    exact ⟨by omega, hact⟩
  unfold Book.modify_order_internal
  rw [if_neg hguard, if_neg (by omega), if_neg hpath]
  exact add_order_internal_fields (s.cancel_order_internal oid) oid
    (s.order_index oid).is_buy np nq 0 hnew

/-- C10 witness: an active iceberg bid (id 1, price 5, total 50, visible 10,
peak 10, user 7) modified to price 6 quantity 8 is re-added as a plain
order: quantity 8, hidden 0, peak 0, user 0, non-AON, same side. -/
theorem C10_modify_discards_extended_fields_witness :
    (let s := (initBook 4).add_iceberg_internal 1 true 5 50 10 7
    let t := s.modify_order_internal 1 6 8
    (t.order_index 1).active = true ∧
      (t.order_index 1).price = 6 ∧
      (t.order_index 1).buy = (s.order_index 1).is_buy ∧
      (t.poolGet (t.order_index 1).pool_idx).order_id = 1 ∧
      (t.poolGet (t.order_index 1).pool_idx).price = 6 ∧
      (t.poolGet (t.order_index 1).pool_idx).quantity = 8 ∧
      (t.poolGet (t.order_index 1).pool_idx).hidden_quantity = 0 ∧
      (t.poolGet (t.order_index 1).pool_idx).peak_size = 0 ∧
      (t.poolGet (t.order_index 1).pool_idx).user_id_low = 0 ∧
      (t.poolGet (t.order_index 1).pool_idx).buy = (s.order_index 1).is_buy ∧
      (t.poolGet (t.order_index 1).pool_idx).aon = false) :=
  C10_modify_discards_extended_fields ((initBook 4).add_iceberg_internal 1 true 5 50 10 7)
    1 6 8 (by decide) (by decide) (by decide) (by decide) (by decide)

/-- C5: the iceberg refresh of the matching walk (invoked by matchInnerWalk
exactly when a traded order's visible quantity has reached 0 and its hidden
quantity is positive) sets the visible quantity to min(peak, hidden) - all
of hidden when peak is 0 - decreases hidden by exactly that amount,
re-appends the node at the tail of the FIFO of the same level, and adjusts
the level volumes accordingly (visible volume grows by the replenished
chunk, total volume is unchanged). -/
theorem C5_iceberg_refresh_spec (s : Book) (b : Bool) (li curr : Nat)
    (hq : (s.poolGet curr).quantity = 0)
    (hh : 0 < (s.poolGet curr).hidden_quantity) :
    (let o := s.poolGet curr
    let rep := if 0 < o.peak_size then min o.peak_size o.hidden_quantity
      else o.hidden_quantity
    let t := s.iceberg_refresh b li curr
    (t.poolGet curr).quantity = rep ∧
      (t.poolGet curr).hidden_quantity = o.hidden_quantity - rep ∧
      (t.getLevel b li).tail = curr ∧
      (t.getLevel b li).total_visible_volume =
        (s.getLevel b li).total_visible_volume + rep ∧
      (t.getLevel b li).total_volume = (s.getLevel b li).total_volume) := by
  unfold Book.iceberg_refresh
  dsimp only []
  set o := s.poolGet curr with ho
  set rep := min (if 0 < o.peak_size then o.peak_size else o.hidden_quantity)
    o.hidden_quantity with hrep
  set s1 := s.setLevel b li (remove_from_level_volume (s.getLevel b li) o) with hs1
  set s2 := s1.list_remove b li curr with hs2
  set s3 := s2.poolSet curr
    { s2.poolGet curr with
      quantity := rep, hidden_quantity := o.hidden_quantity - rep } with hs3
  set s4 := s3.list_push_back b li curr with hs4
  set s5 := s4.setLevel b li (add_to_level_volume (s4.getLevel b li) (s4.poolGet curr)) with hs5
  have hrc : rep = (if 0 < o.peak_size then min o.peak_size o.hidden_quantity
      else o.hidden_quantity) := by
    rw [hrep]; by_cases hp : 0 < o.peak_size <;> simp [hp, min_self]
  have h5pg : s5.poolGet curr = s4.poolGet curr := by rw [hs5, poolGet_setLevel]
  have h4q : (s4.poolGet curr).quantity = rep := by
    rw [hs4, list_push_back_poolGet_quantity, hs3, poolGet_poolSet]; simp
  have h4h : (s4.poolGet curr).hidden_quantity = o.hidden_quantity - rep := by
    rw [hs4, list_push_back_poolGet_hidden_quantity, hs3, poolGet_poolSet]; simp
  have h5lv : s5.getLevel b li = add_to_level_volume (s4.getLevel b li) (s4.poolGet curr) := by
    rw [hs5, getLevel_setLevel]; simp
  have h4tail : (s4.getLevel b li).tail = curr := by
    rw [hs4, list_push_back_getLevel_self]
  have h4tvv : (s4.getLevel b li).total_visible_volume =
      (s2.getLevel b li).total_visible_volume := by
    rw [hs4, list_push_back_getLevel_self, hs3, getLevel_poolSet]
  have h4tv : (s4.getLevel b li).total_volume = (s2.getLevel b li).total_volume := by
    rw [hs4, list_push_back_getLevel_self, hs3, getLevel_poolSet]
  have h2tvv : (s2.getLevel b li).total_visible_volume =
      (s.getLevel b li).total_visible_volume - o.quantity := by
    rw [hs2, list_remove_getLevel_self, hs1, getLevel_setLevel]
    simp [remove_from_level_volume]
  have h2tv : (s2.getLevel b li).total_volume =
      (s.getLevel b li).total_volume - (o.quantity + o.hidden_quantity) := by
    rw [hs2, list_remove_getLevel_self, hs1, getLevel_setLevel]
    simp [remove_from_level_volume]
  refine ⟨?_, ?_, ?_, ?_, ?_⟩ <;> by_cases hoi : o.order_id < s5.order_index_size
  · simp [hoi, order_index_update_poolGet, h5pg, h4q, hrc]
  · simp [hoi, order_index_update_poolGet, h5pg, h4q, hrc]
  · simp [hoi, order_index_update_poolGet, h5pg, h4h, hrc]
  · simp [hoi, order_index_update_poolGet, h5pg, h4h, hrc]
  · simp [hoi, order_index_update_getLevel, h5lv, add_to_level_volume, h4tail]
  · simp [hoi, order_index_update_getLevel, h5lv, add_to_level_volume, h4tail]
  · simp [hoi, order_index_update_getLevel, h5lv, add_to_level_volume, h4tvv, h2tvv,
      h5pg, h4q, hrc, hq] <;> try omega
  · simp [hoi, order_index_update_getLevel, h5lv, add_to_level_volume, h4tvv, h2tvv,
      h5pg, h4q, hrc, hq] <;> try omega
  · simp [hoi, order_index_update_getLevel, h5lv, add_to_level_volume, h4tv, h2tv,
      h5pg, h4q, h4h, hrc, hq] <;> try omega
  · simp [hoi, order_index_update_getLevel, h5lv, add_to_level_volume, h4tv, h2tv,
      h5pg, h4q, h4h, hrc, hq] <;> try omega

/-- C5 witness: an iceberg bid resting with visible 0, hidden 50 and peak 0
(added with visible quantity 0) refreshes to visible 50, hidden 0, at the
tail of its level, with the visible volume grown by 50 and the total volume
unchanged. -/
theorem C5_iceberg_refresh_spec_witness :
    (let s := (initBook 4).add_iceberg_internal 1 true 5 50 0 0
    let o := s.poolGet 0
    let rep := if 0 < o.peak_size then min o.peak_size o.hidden_quantity
      else o.hidden_quantity
    let t := s.iceberg_refresh true 5 0
    (t.poolGet 0).quantity = rep ∧
      (t.poolGet 0).hidden_quantity = o.hidden_quantity - rep ∧
      (t.getLevel true 5).tail = 0 ∧
      (t.getLevel true 5).total_visible_volume =
        (s.getLevel true 5).total_visible_volume + rep ∧
      (t.getLevel true 5).total_volume = (s.getLevel true 5).total_volume) :=
  C5_iceberg_refresh_spec ((initBook 4).add_iceberg_internal 1 true 5 50 0 0)
    true 5 0 (by decide) (by decide)

/-- A cancel never changes the trade counter: only emit_trade increments it
and cancel_order_internal never trades. -/
theorem cancel_order_internal_trades (s : Book) (oid : Nat) :
    (s.cancel_order_internal oid).trades_executed = s.trades_executed := by
  unfold Book.cancel_order_internal
  by_cases h1 : s.order_index_size ≤ oid ∨ ¬ (s.order_index oid).is_active
  · rw [if_pos h1]
  · rw [if_neg h1]
    dsimp only []
    by_cases h2 : MAX_PRICE_LEVELS ≤ priceToIndex (s.order_index oid).price
    · rw [if_pos h2]
    · rw [if_neg h2]
      set ib := (s.order_index oid).is_buy with hib
      set pi := priceToIndex (s.order_index oid).price with hpi
      set pidx := (s.order_index oid).pool_idx with hpidx
      set o := s.poolGet pidx with ho
      set s1 := s.setLevel ib pi (remove_from_level_volume (s.getLevel ib pi) o) with hs1
      set s2 := s1.list_remove ib pi pidx with hs2
      set s3 := { s2 with order_pool := s2.order_pool.free pidx } with hs3
      have t2 : s2.trades_executed = s.trades_executed := by
        rw [hs2, list_remove_trades_executed, hs1, setLevel_eq]
      split_ifs <;>
        simp [emit_order_cancelled_eq, update_best_bid_after_remove_eq,
          update_best_ask_after_remove_eq, t2]

/-- A direct internal add never changes the trade counter. -/
theorem add_order_internal_trades (s : Book) (oid : Nat) (ib : Bool)
    (price q : Int) (uid : Nat) :
    (s.add_order_internal oid ib price q uid).trades_executed = s.trades_executed := by
  unfold Book.add_order_internal
  by_cases h1 : MAX_PRICE_LEVELS ≤ priceToIndex price
  · rw [if_pos h1]
  · rw [if_neg h1]
    dsimp only []
    set pi := priceToIndex price with hpi
    set idx := s.order_pool.allocate.1 with hidx
    set s1 := { s with order_pool := s.order_pool.allocate.2 } with hs1
    set od := ({ order_id := oid, user_id_low := uid, price := price,
                 quantity := q, hidden_quantity := 0, peak_size := 0,
                 buy := ib, aon := false, next := NULL_INDEX,
                 prev := NULL_INDEX } : Order) with hod
    set s2 := s1.poolSet idx od with hs2
    set s3 := s2.list_push_back ib pi idx with hs3
    set s4 := s3.setLevel ib pi (add_to_level_volume (s3.getLevel ib pi) od) with hs4
    have t4 : s4.trades_executed = s.trades_executed := by
      rw [hs4, setLevel_eq]
      dsimp only []
      rw [hs3, list_push_back_trades_executed, hs2, poolSet_eq]
    split_ifs <;>
      simp [emit_order_accepted_eq, ensure_capacity_eq, update_best_bid_after_add_eq,
        update_best_ask_after_add_eq, t4]

/-- C2 amended: for an active in-range id, modify with the same price and a
new quantity at most the current visible quantity mutates in place (the
record keeps its FIFO links, the level keeps head, tail and count, the
visible volume moves by the delta and no event is emitted); in every other
case modify is exactly cancel-then-internal-add on the same side with user
id 0, and it executes no trades even when the re-add crosses the opposite
best. -/
theorem C2_modify_semantics (s : Book) (oid : Nat) (np nq : Int)
    (hsz : oid < s.order_index_size)
    (hact : (s.order_index oid).is_active = true)
    (hold : priceToIndex (s.order_index oid).price < MAX_PRICE_LEVELS) :
    (let loc := s.order_index oid
    let pi := priceToIndex loc.price
    let o := s.poolGet loc.pool_idx
    let t := s.modify_order_internal oid np nq
    ((np = loc.price ∧ nq ≤ o.quantity) →
      (t.poolGet loc.pool_idx).quantity = nq ∧
        (t.poolGet loc.pool_idx).next = o.next ∧
        (t.poolGet loc.pool_idx).prev = o.prev ∧
        (t.getLevel loc.is_buy pi).head = (s.getLevel loc.is_buy pi).head ∧
        (t.getLevel loc.is_buy pi).tail = (s.getLevel loc.is_buy pi).tail ∧
        (t.getLevel loc.is_buy pi).count = (s.getLevel loc.is_buy pi).count ∧
        (t.getLevel loc.is_buy pi).total_visible_volume =
          (s.getLevel loc.is_buy pi).total_visible_volume + (nq - o.quantity) ∧
        t.out = s.out) ∧
      (¬ (np = loc.price ∧ nq ≤ o.quantity) →
        t = (s.cancel_order_internal oid).add_order_internal oid loc.is_buy np nq 0 ∧
        t.trades_executed = s.trades_executed)) := by
  have hguard : ¬ (s.order_index_size ≤ oid ∨ ¬ (s.order_index oid).is_active = true) := by
    push_neg
    exact ⟨by omega, hact⟩
  unfold Book.modify_order_internal
  rw [if_neg hguard, if_neg (by omega)]
  constructor
  · intro hc
    rw [if_pos hc]
    cases hb : (s.order_index oid).is_buy <;>
      simp [hb, poolGet_poolSet, poolGet_setLevel, getLevel_setLevel, getLevel_poolSet,
        adjust_level_volume, setLevel_eq, Book.poolSet, Book.poolGet, Book.getLevel]
  · intro hc
    rw [if_neg hc]
    exact ⟨rfl, by rw [add_order_internal_trades, cancel_order_internal_trades]⟩

/-- C2 witness: in-place modify of a resting bid of 10 at 100 down to 4
keeps the FIFO untouched and moves the visible volume by -6 with no event;
and a crossing modify of a resting ask from 200 to 90 against a bid at 100
is exactly cancel-then-internal-add with zero trades. -/
theorem C2_modify_semantics_witness :
    ((let s := (initBook 4).add_order_internal 1 true 100 10 0
    let loc := s.order_index 1
    let pi := priceToIndex loc.price
    let o := s.poolGet loc.pool_idx
    let t := s.modify_order_internal 1 100 4
    (t.poolGet loc.pool_idx).quantity = 4 ∧
      (t.poolGet loc.pool_idx).next = o.next ∧
      (t.poolGet loc.pool_idx).prev = o.prev ∧
      (t.getLevel loc.is_buy pi).head = (s.getLevel loc.is_buy pi).head ∧
      (t.getLevel loc.is_buy pi).tail = (s.getLevel loc.is_buy pi).tail ∧
      (t.getLevel loc.is_buy pi).count = (s.getLevel loc.is_buy pi).count ∧
      (t.getLevel loc.is_buy pi).total_visible_volume =
        (s.getLevel loc.is_buy pi).total_visible_volume + (4 - o.quantity) ∧
      t.out = s.out) ∧
    (let s2 := (((initBook 8).add_order_internal 1 true 100 10 0).add_order_internal
        5 false 201 4 0).add_order_internal 2 false 200 5 0
    let t2 := s2.modify_order_internal 2 90 5
    t2 = (s2.cancel_order_internal 2).add_order_internal 2
        (s2.order_index 2).is_buy 90 5 0 ∧
      t2.trades_executed = s2.trades_executed)) := by
  constructor
  · exact (C2_modify_semantics ((initBook 4).add_order_internal 1 true 100 10 0) 1 100 4
      (by decide) (by decide) (by decide)).1 (by decide)
  · exact (C2_modify_semantics ((((initBook 8).add_order_internal 1 true 100 10 0).add_order_internal
        5 false 201 4 0).add_order_internal 2 false 200 5 0) 2 90 5
      (by decide) (by decide) (by decide)).2 (by decide)


/-- With zero fuel the FIFO walk reports exhaustion whenever it has a node to
visit and budget left. -/
theorem matchInnerWalk_fuel_zero (oid : Nat) (cb : Int) (li : Nat) (s : Book)
    (curr : Nat) (rem : Int) (tc : Nat)
    (hcurr : curr ≠ NULL_INDEX) (hrem : 0 < rem) :
    matchInnerWalk oid true cb li 0 curr rem tc s = none := by
  rw [matchInnerWalk]
  simp [hcurr, hrem]

/-- A FIFO walk that meets a skippable AON order (AON flag set, total above
the remaining budget) whose next pointer is the sentinel returns with the
book, the remaining quantity and the trade count unchanged. -/
theorem matchInnerWalk_skip_lone_aon (oid : Nat) (cb : Int) (li : Nat) (s : Book)
    (curr : Nat) (rem : Int) (tc : Nat) (fuel : Nat)
    (hcurr : curr ≠ NULL_INDEX) (hrem : 0 < rem)
    (haon : (s.poolGet curr).is_aon = true)
    (hlt : rem < (s.poolGet curr).quantity + (s.poolGet curr).hidden_quantity)
    (hnext : (s.poolGet curr).next = NULL_INDEX) :
    matchInnerWalk oid true cb li (fuel + 1) curr rem tc s = some (s, rem, tc) := by
  rw [matchInnerWalk]
  rw [if_neg (by simp [hcurr, hrem])]
  dsimp only []
  rw [if_pos (And.intro haon hlt)]
  rw [hnext, matchInnerWalk.eq_def]
  simp

/-- One outer iteration of the price-time loop against a best opposite level
holding exactly one skippable AON order: the level is left untouched, so the
iteration returns the identical loop state (or exhaustion when the walk has
no fuel). -/
theorem matchLoopStep_skip_lone_aon (oid : Nat) (s : Book) (rem : Int) (tc : Nat)
    (fuel : Nat) (li hd : Nat)
    (hli : li = priceToIndex s.best_ask)
    (hhd : hd = (s.getLevel false li).head)
    (hrem : 0 < rem)
    (hhead : hd ≠ NULL_INDEX)
    (haon : (s.poolGet hd).is_aon = true)
    (hlt : rem < (s.poolGet hd).quantity + (s.poolGet hd).hidden_quantity)
    (hnext : (s.poolGet hd).next = NULL_INDEX)
    (hask : ¬ s.best_ask = INT64_MAX) :
    matchLoopStep oid true fuel rem tc false s =
      (match fuel with
      | 0 => none
      | _ + 1 => some (rem, tc, false, s)) := by
  unfold matchLoopStep
  dsimp only []
  simp only [Bool.not_true, eq_self_iff_true, if_true]
  rw [if_neg (by simp [PriceLevel.empty, ← hli, ← hhd, hhead])]
  cases fuel with
  | zero =>
    rw [← hli, ← hhd,
      matchInnerWalk_fuel_zero oid s.best_ask li s hd rem tc hhead hrem]
  | succ n =>
    rw [← hli, ← hhd,
      matchInnerWalk_skip_lone_aon oid s.best_ask li s hd rem tc n hhead hrem
        haon hlt hnext]
    dsimp only []
    rw [if_neg (by simp [PriceLevel.empty, ← hhd, hhead])]
    simp [hask]

/-- The outer price-time loop never returns, for any fuel, when the best
opposite level holds exactly one AON order whose total exceeds the remaining
budget and the limit price does not cut off the best ask: every iteration
reproduces the identical loop state. -/
theorem matchLoop_spin_lone_aon (oid : Nat) (price : Int) (s : Book) (rem : Int)
    (li hd : Nat)
    (hli : li = priceToIndex s.best_ask)
    (hhd : hd = (s.getLevel false li).head)
    (hrem : 0 < rem)
    (hprice : ¬ price < s.best_ask)
    (hrange : priceToIndex s.best_ask < MAX_PRICE_LEVELS)
    (hhead : hd ≠ NULL_INDEX)
    (haon : (s.poolGet hd).is_aon = true)
    (hlt : rem < (s.poolGet hd).quantity + (s.poolGet hd).hidden_quantity)
    (hnext : (s.poolGet hd).next = NULL_INDEX)
    (hask : ¬ s.best_ask = INT64_MAX) :
    ∀ fuel tc, matchLoop oid true price fuel rem tc false s = none := by
  intro fuel
  induction fuel with
  | zero =>
    intro tc
    rw [matchLoop.eq_def]
    dsimp only []
    simp only [eq_self_iff_true, if_true]
    rw [if_neg (by simp [hrem])]
    rw [if_neg (by simp [hprice])]
    rw [if_neg (by simp)]
    rw [if_neg (not_le.mpr hrange)]
  | succ n ih =>
    intro tc
    rw [matchLoop.eq_def]
    dsimp only []
    simp only [eq_self_iff_true, if_true]
    rw [if_neg (by simp [hrem])]
    rw [if_neg (by simp [hprice])]
    rw [if_neg (by simp)]
    rw [if_neg (not_le.mpr hrange)]
    rw [matchLoopStep_skip_lone_aon oid s rem tc n li hd hli hhd hrem hhead
      haon hlt hnext hask]
    cases n with
    | zero => rfl
    | succ m =>
      dsimp only []
      exact ih tc

/-- C3: the claim that every core operation terminates is violated by the
code.  On the book holding exactly one resting AON ask of 20 at price 100
(the result of an AON match resting on the empty book), a plain GTC match
buying 5 at 100 never returns: the price-time walk skips the AON order
(remaining 5 is below its total 20), the level stays non-empty, the best ask
is unchanged, and the outer while loop re-enters with identical state
forever.  In the embedding, match_internal reports fuel exhaustion (none)
for every fuel. -/
theorem C3_match_diverges_on_skipped_aon :
    ∀ fuel,
      Book.match_internal ((initBook 4).add_aon_internal 2 false 100 20 0) fuel 3 true
        100 5 TimeInForce.GTC = none := by
  intro fuel
  unfold Book.match_internal
  dsimp only []
  rw [if_neg (by decide), if_neg (by decide)]
  simp only [eq_self_iff_true, if_true]
  have hspin := matchLoop_spin_lone_aon 3 100
    ((initBook 4).add_aon_internal 2 false 100 20 0) 5
    (priceToIndex ((initBook 4).add_aon_internal 2 false 100 20 0).best_ask)
    ((((initBook 4).add_aon_internal 2 false 100 20 0).getLevel false
      (priceToIndex ((initBook 4).add_aon_internal 2 false 100 20 0).best_ask)).head)
    rfl rfl (by decide) (by decide) (by decide) (by decide) (by decide)
    (by decide) (by decide) (by decide)
  rw [show (decide (((initBook 4).add_aon_internal 2 false 100 20 0).best_ask =
      INT64_MAX)) = false from by decide]
  rw [hspin fuel 0]


/-- The size_t cast wraps 2^64 minus one minus the bit to the C complement
mask; clearing a freshly set bit restores the word when the bit was clear
and the word is a 64-bit value. -/
theorem two_pow_sub_one_sub_pow (k : Nat) (hk : k < 64) :
    U64 - 1 - 2 ^ k = (U64 - 1) ^^^ 2 ^ k := by
  interval_cases k <;> rfl

/-- Clearing bit k of a word that just had bit k set restores the word, when
the bit was clear before and the word fits 64 bits. -/
theorem bitmap_set_clear_restore (x k : Nat) (hk : k < 64) (hx : x < U64)
    (hb : x &&& 2 ^ k = 0) :
    (x ||| 2 ^ k) &&& (U64 - 1 - 2 ^ k) = x := by
  have hxk : x.testBit k = false := by
    have h0 : (x &&& 2 ^ k).testBit k = false := by rw [hb]; exact Nat.zero_testBit k
    rw [Nat.testBit_and, Nat.testBit_two_pow_self, Bool.and_true] at h0
    exact h0
  rw [two_pow_sub_one_sub_pow k hk]
  rw [show (U64 : Nat) = 2 ^ 64 from rfl]
  apply Nat.eq_of_testBit_eq
  intro j
  rw [Nat.testBit_and, Nat.testBit_or, Nat.testBit_xor, Nat.testBit_two_pow_sub_one]
  by_cases hj : j = k
  · subst hj
    simp [hxk, Nat.testBit_two_pow_self, hk]
  · rw [Nat.testBit_two_pow_of_ne (fun h => hj h.symm)]
    by_cases hj64 : j < 64
    · simp [hj64]
    · have hfj : x.testBit j = false := by
        apply Nat.testBit_lt_two_pow
        calc x < U64 := hx
        _ = 2 ^ 64 := rfl
        _ ≤ 2 ^ j := Nat.pow_le_pow_right (by omega) (by omega)
      simp [hfj, hj64]

/-- Field-level characterization of a direct in-range internal add: the
target level gains the node at its tail with the visible volume, every other
level is untouched, the freshly allocated slot holds the plain order linked
behind the old tail, the index entry is written active, and the counters,
level counts and bitmaps move exactly by the empty-to-nonempty transition. -/
theorem add_order_internal_state (s : Book) (oid : Nat) (ib : Bool) (price q : Int)
    (uid : Nat)
    (hrange : priceToIndex price < MAX_PRICE_LEVELS)
    (halias : (s.getLevel ib (priceToIndex price)).tail ≠ NULL_INDEX →
      (s.getLevel ib (priceToIndex price)).tail ≠ s.order_pool.allocate.1) :
    (let pi := priceToIndex price
     let idx := s.order_pool.allocate.1
     let L := s.getLevel ib pi
     let A := s.add_order_internal oid ib price q uid
     (∀ b p, ¬ (b = ib ∧ p = pi) → A.getLevel b p = s.getLevel b p) ∧
     A.getLevel ib pi =
       { head := if L.tail = NULL_INDEX then idx else L.head,
         tail := idx, count := L.count + 1,
         total_volume := L.total_volume + (q + 0),
         total_visible_volume := L.total_visible_volume + q,
         total_aon_volume := L.total_aon_volume,
         total_non_aon_volume := L.total_non_aon_volume + (q + 0) } ∧
     (A.poolGet idx).quantity = q ∧
     (A.poolGet idx).hidden_quantity = 0 ∧
     (A.poolGet idx).aon = false ∧
     (A.poolGet idx).prev = L.tail ∧
     (A.poolGet idx).next = NULL_INDEX ∧
     A.order_index oid =
       { price := price, pool_idx := idx, buy := ib, active := true } ∧
     oid < A.order_index_size ∧
     A.active_order_count = s.active_order_count + 1 ∧
     A.bid_level_count = (if L.empty = true ∧ ib = true then s.bid_level_count + 1
       else s.bid_level_count) ∧
     A.ask_level_count = (if L.empty = true ∧ ib = false then s.ask_level_count + 1
       else s.ask_level_count) ∧
     A.bid_bitmap = (if L.empty = true ∧ ib = true then bitmap_set s.bid_bitmap pi
       else s.bid_bitmap) ∧
     A.ask_bitmap = (if L.empty = true ∧ ib = false then bitmap_set s.ask_bitmap pi
       else s.ask_bitmap)) := by
  dsimp only []
  unfold Book.add_order_internal
  rw [if_neg (not_le.mpr hrange)]
  dsimp only []
  set pi := priceToIndex price with hpi
  set idx := s.order_pool.allocate.1 with hidx
  set L := s.getLevel ib pi with hL
  set a1 := { s with order_pool := s.order_pool.allocate.2 } with ha1
  set od := ({ order_id := oid, user_id_low := uid, price := price, quantity := q,
               hidden_quantity := 0, peak_size := 0, buy := ib, aon := false,
               next := NULL_INDEX, prev := NULL_INDEX } : Order) with hod
  set a2 := a1.poolSet idx od with ha2
  set a3 := a2.list_push_back ib pi idx with ha3
  set a4 := a3.setLevel ib pi (add_to_level_volume (a3.getLevel ib pi) od) with ha4
  set a5 := (if L.empty = true then
      (if ib = true then
        Book.update_best_bid_after_add
          { a4 with bid_level_count := a4.bid_level_count + 1 } price
       else
        Book.update_best_ask_after_add
          { a4 with ask_level_count := a4.ask_level_count + 1 } price)
    else a4) with ha5
  set a6 := a5.ensure_capacity oid with ha6
  set a7 := ({ a6 with
      order_index := fun j => if j = oid then
        ({ price := price, pool_idx := idx, buy := ib, active := true } : OrderLocation)
      else a6.order_index j,
      active_order_count := a6.active_order_count + 1 } : Book) with ha7
  have hL1g : ∀ b p, a1.getLevel b p = s.getLevel b p := by
    intro b p
    rw [ha1]
    cases b <;> simp [Book.getLevel]
  have hL2g : ∀ b p, a2.getLevel b p = s.getLevel b p := by
    intro b p
    rw [ha2, getLevel_poolSet]
    exact hL1g b p
  have hL2L : a2.getLevel ib pi = L := by rw [hL2g ib pi, hL]
  have hL3o : ∀ b p, ¬ (b = ib ∧ p = pi) → a3.getLevel b p = s.getLevel b p := by
    intro b p h
    rw [ha3, list_push_back_getLevel_other a2 ib pi idx b p h]
    exact hL2g b p
  have hL3s : a3.getLevel ib pi =
      { head := if L.tail = NULL_INDEX then idx else L.head,
        tail := idx, count := L.count + 1, total_volume := L.total_volume,
        total_visible_volume := L.total_visible_volume,
        total_aon_volume := L.total_aon_volume,
        total_non_aon_volume := L.total_non_aon_volume } := by
    rw [ha3, list_push_back_getLevel_self, hL2L]
  have hL4s : a4.getLevel ib pi =
      { head := if L.tail = NULL_INDEX then idx else L.head,
        tail := idx, count := L.count + 1,
        total_volume := L.total_volume + (q + 0),
        total_visible_volume := L.total_visible_volume + q,
        total_aon_volume := L.total_aon_volume,
        total_non_aon_volume := L.total_non_aon_volume + (q + 0) } := by
    rw [ha4, getLevel_setLevel, if_pos (And.intro rfl rfl), hL3s]
    simp [hod, add_to_level_volume, Order.is_aon]
  have hL4o : ∀ b p, ¬ (b = ib ∧ p = pi) → a4.getLevel b p = s.getLevel b p := by
    intro b p h
    rw [ha4, getLevel_setLevel, if_neg h]
    exact hL3o b p h
  have hP4 : ∀ j, a4.poolGet j = a3.poolGet j := by
    intro j
    rw [ha4, poolGet_setLevel]
  have hP2 : a2.poolGet idx = od := by
    rw [ha2, poolGet_poolSet]
    simp
  have hpq3 : (a3.poolGet idx).quantity = q := by
    rw [ha3, list_push_back_poolGet_quantity, hP2, hod]
  have hph3 : (a3.poolGet idx).hidden_quantity = 0 := by
    rw [ha3, list_push_back_poolGet_hidden_quantity, hP2, hod]
  have hpa3 : (a3.poolGet idx).aon = false := by
    rw [ha3, list_push_back_poolGet_aon, hP2, hod]
  have hpp3 : (a3.poolGet idx).prev = L.tail := by
    rw [ha3, list_push_back_poolGet_self_prev, hL2L]
  have hpn3 : (a3.poolGet idx).next = NULL_INDEX := by
    rw [ha3, list_push_back_poolGet_self_next, hL2L]
    by_cases ht : L.tail = NULL_INDEX
    · simp [ht]
    · simp [ht, halias ht]
  have hfr4 : a4.order_index_size = s.order_index_size ∧
      a4.order_index = s.order_index ∧
      a4.active_order_count = s.active_order_count ∧
      a4.bid_level_count = s.bid_level_count ∧
      a4.ask_level_count = s.ask_level_count ∧
      a4.bid_bitmap = s.bid_bitmap ∧
      a4.ask_bitmap = s.ask_bitmap := by
    rw [ha4, setLevel_eq]
    dsimp only []
    rw [ha3]
    refine ⟨?_, ?_, ?_, ?_, ?_, ?_, ?_⟩
    · rw [(list_push_back_frame a2 ib pi idx).2.1, ha2, poolSet_eq]
    · rw [(list_push_back_frame a2 ib pi idx).1, ha2, poolSet_eq]
    · rw [(list_push_back_frame a2 ib pi idx).2.2.2.2.2.2.1, ha2, poolSet_eq]
    · rw [(list_push_back_frame a2 ib pi idx).2.2.2.2.1, ha2, poolSet_eq]
    · rw [(list_push_back_frame a2 ib pi idx).2.2.2.2.2.1, ha2, poolSet_eq]
    · rw [(list_push_back_frame a2 ib pi idx).2.2.1, ha2, poolSet_eq]
    · rw [(list_push_back_frame a2 ib pi idx).2.2.2.1, ha2, poolSet_eq]
  have hA5lev : ∀ b p, a5.getLevel b p = a4.getLevel b p := by
    intro b p
    rw [ha5]
    by_cases hwe : L.empty = true <;> by_cases hb2 : ib = true <;> cases b <;>
      simp [hwe, hb2, update_best_bid_after_add_eq, update_best_ask_after_add_eq,
        Book.getLevel]
  have hA5pool : ∀ j, a5.poolGet j = a4.poolGet j := by
    intro j
    rw [ha5]
    by_cases hwe : L.empty = true <;> by_cases hb2 : ib = true <;>
      simp [hwe, hb2, update_best_bid_after_add_eq, update_best_ask_after_add_eq,
        Book.poolGet]
  have hA5sz : a5.order_index_size = a4.order_index_size := by
    rw [ha5]
    by_cases hwe : L.empty = true <;> by_cases hb2 : ib = true <;>
      simp [hwe, hb2, update_best_bid_after_add_eq, update_best_ask_after_add_eq]
  have hA5aoc : a5.active_order_count = a4.active_order_count := by
    rw [ha5]
    by_cases hwe : L.empty = true <;> by_cases hb2 : ib = true <;>
      simp [hwe, hb2, update_best_bid_after_add_eq, update_best_ask_after_add_eq]
  have hA5blc : a5.bid_level_count =
      (if L.empty = true ∧ ib = true then a4.bid_level_count + 1
       else a4.bid_level_count) := by
    rw [ha5]
    by_cases hwe : L.empty = true <;> by_cases hb2 : ib = true <;>
      simp [hwe, hb2, update_best_bid_after_add_eq, update_best_ask_after_add_eq]
  have hA5alc : a5.ask_level_count =
      (if L.empty = true ∧ ib = false then a4.ask_level_count + 1
       else a4.ask_level_count) := by
    rw [ha5]
    by_cases hwe : L.empty = true <;> by_cases hb2 : ib = true <;>
      simp [hwe, hb2, update_best_bid_after_add_eq, update_best_ask_after_add_eq]
  have hA5bb : a5.bid_bitmap =
      (if L.empty = true ∧ ib = true then bitmap_set a4.bid_bitmap pi
       else a4.bid_bitmap) := by
    rw [ha5]
    by_cases hwe : L.empty = true <;> by_cases hb2 : ib = true <;>
      simp [hwe, hb2, update_best_bid_after_add_eq, update_best_ask_after_add_eq, hpi]
  have hA5ab : a5.ask_bitmap =
      (if L.empty = true ∧ ib = false then bitmap_set a4.ask_bitmap pi
       else a4.ask_bitmap) := by
    rw [ha5]
    by_cases hwe : L.empty = true <;> by_cases hb2 : ib = true <;>
      simp [hwe, hb2, update_best_bid_after_add_eq, update_best_ask_after_add_eq, hpi]
  have hAlev : ∀ b p, (a7.emit_order_accepted oid ib price q).getLevel b p =
      a5.getLevel b p := by
    intro b p
    rw [ha7, ha6]
    cases b <;> simp [emit_order_accepted_eq, ensure_capacity_eq, Book.getLevel]
  have hApool : ∀ j, (a7.emit_order_accepted oid ib price q).poolGet j =
      a5.poolGet j := by
    intro j
    rw [ha7, ha6]
    simp [emit_order_accepted_eq, ensure_capacity_eq, Book.poolGet]
  refine ⟨?_, ?_, ?_, ?_, ?_, ?_, ?_, ?_, ?_, ?_, ?_, ?_, ?_, ?_⟩
  · intro b p h
    rw [hAlev, hA5lev, hL4o b p h]
  · rw [hAlev, hA5lev, hL4s]
  · rw [hApool, hA5pool, hP4, hpq3]
  · rw [hApool, hA5pool, hP4, hph3]
  · rw [hApool, hA5pool, hP4, hpa3]
  · rw [hApool, hA5pool, hP4, hpp3]
  · rw [hApool, hA5pool, hP4, hpn3]
  · rw [ha7]
    simp [emit_order_accepted_eq]
  · rw [ha7, ha6]
    simp only [emit_order_accepted_eq, ensure_capacity_eq]
    rw [hA5sz, hfr4.1]
    split_ifs <;> omega
  · rw [ha7, ha6]
    simp only [emit_order_accepted_eq, ensure_capacity_eq]
    rw [hA5aoc, hfr4.2.2.1]
  · rw [ha7, ha6]
    simp only [emit_order_accepted_eq, ensure_capacity_eq]
    rw [hA5blc, hfr4.2.2.2.1]
  · rw [ha7, ha6]
    simp only [emit_order_accepted_eq, ensure_capacity_eq]
    rw [hA5alc, hfr4.2.2.2.2.1]
  · rw [ha7, ha6]
    simp only [emit_order_accepted_eq, ensure_capacity_eq]
    rw [hA5bb, hfr4.2.2.2.2.2.1]
  · rw [ha7, ha6]
    simp only [emit_order_accepted_eq, ensure_capacity_eq]
    rw [hA5ab, hfr4.2.2.2.2.2.2]

/-- Cancelling the order that a direct in-range internal add just created
restores every price level, both level counts, the active order count and
both bitmaps to their pre-add values.  The pre-add book s and the post-add
book A are linked by the field facts that add_order_internal_state
establishes. -/
theorem cancel_order_internal_restores (s A : Book) (oid idx : Nat) (ib : Bool)
    (price q : Int)
    (hrange : priceToIndex price < MAX_PRICE_LEVELS)
    (hiff : (s.getLevel ib (priceToIndex price)).head = NULL_INDEX ↔
      (s.getLevel ib (priceToIndex price)).tail = NULL_INDEX)
    (hbit : (s.getLevel ib (priceToIndex price)).head = NULL_INDEX →
      (if ib = true then s.bid_bitmap else s.ask_bitmap)
        (priceToIndex price / 64) &&& 2 ^ (priceToIndex price % 64) = 0)
    (hword : (if ib = true then s.bid_bitmap else s.ask_bitmap)
      (priceToIndex price / 64) < U64)
    (hoidx : A.order_index oid =
      { price := price, pool_idx := idx, buy := ib, active := true })
    (hosz : oid < A.order_index_size)
    (hlevo : ∀ b p, ¬ (b = ib ∧ p = priceToIndex price) →
      A.getLevel b p = s.getLevel b p)
    (hlev : A.getLevel ib (priceToIndex price) =
      { head := if (s.getLevel ib (priceToIndex price)).tail = NULL_INDEX
          then idx else (s.getLevel ib (priceToIndex price)).head,
        tail := idx,
        count := (s.getLevel ib (priceToIndex price)).count + 1,
        total_volume := (s.getLevel ib (priceToIndex price)).total_volume + (q + 0),
        total_visible_volume :=
          (s.getLevel ib (priceToIndex price)).total_visible_volume + q,
        total_aon_volume := (s.getLevel ib (priceToIndex price)).total_aon_volume,
        total_non_aon_volume :=
          (s.getLevel ib (priceToIndex price)).total_non_aon_volume + (q + 0) })
    (hpq : (A.poolGet idx).quantity = q)
    (hph : (A.poolGet idx).hidden_quantity = 0)
    (hpa : (A.poolGet idx).aon = false)
    (hpp : (A.poolGet idx).prev = (s.getLevel ib (priceToIndex price)).tail)
    (hpn : (A.poolGet idx).next = NULL_INDEX)
    (haoc : A.active_order_count = s.active_order_count + 1)
    (hblc : A.bid_level_count =
      (if (s.getLevel ib (priceToIndex price)).empty = true ∧ ib = true
       then s.bid_level_count + 1 else s.bid_level_count))
    (halc : A.ask_level_count =
      (if (s.getLevel ib (priceToIndex price)).empty = true ∧ ib = false
       then s.ask_level_count + 1 else s.ask_level_count))
    (hbbm : A.bid_bitmap =
      (if (s.getLevel ib (priceToIndex price)).empty = true ∧ ib = true
       then bitmap_set s.bid_bitmap (priceToIndex price) else s.bid_bitmap))
    (habm : A.ask_bitmap =
      (if (s.getLevel ib (priceToIndex price)).empty = true ∧ ib = false
       then bitmap_set s.ask_bitmap (priceToIndex price) else s.ask_bitmap)) :
    (∀ b p, (A.cancel_order_internal oid).getLevel b p = s.getLevel b p) ∧
    (A.cancel_order_internal oid).bid_level_count = s.bid_level_count ∧
    (A.cancel_order_internal oid).ask_level_count = s.ask_level_count ∧
    (A.cancel_order_internal oid).active_order_count = s.active_order_count ∧
    (∀ w, (A.cancel_order_internal oid).bid_bitmap w = s.bid_bitmap w) ∧
    (∀ w, (A.cancel_order_internal oid).ask_bitmap w = s.ask_bitmap w) := by
  unfold Book.cancel_order_internal
  rw [if_neg (by
    push_neg
    refine ⟨by omega, ?_⟩
    simp [hoidx, OrderLocation.is_active])]
  dsimp only []
  rw [hoidx]
  dsimp only [OrderLocation.is_buy, OrderLocation.is_active]
  rw [if_neg (not_le.mpr hrange)]
  set pi := priceToIndex price with hpi
  set L := s.getLevel ib pi with hL
  set c1 := A.setLevel ib pi
    (remove_from_level_volume (A.getLevel ib pi) (A.poolGet idx)) with hc1
  set c2 := c1.list_remove ib pi idx with hc2
  set c3 := ({ c2 with order_pool := c2.order_pool.free idx } : Book) with hc3
  set r1 := Book.mk c2.bid_levels c2.ask_levels c2.bid_bitmap c2.ask_bitmap
      c2.best_bid c2.best_ask c2.best_bid_word c2.best_ask_word
      (c2.bid_level_count - 1) c2.ask_level_count (c2.order_pool.free idx)
      c2.order_index c2.order_index_size c2.active_order_count c2.max_order_id
      c2.use_ring_buffer c2.emit_accepts c2.emit_cancels c2.out
      c2.current_timestamp c2.trades_executed c2.messages_dropped with hr1
  set r2 := Book.mk c2.bid_levels c2.ask_levels c2.bid_bitmap c2.ask_bitmap
      c2.best_bid c2.best_ask c2.best_bid_word c2.best_ask_word
      c2.bid_level_count (c2.ask_level_count - 1) (c2.order_pool.free idx)
      c2.order_index c2.order_index_size c2.active_order_count c2.max_order_id
      c2.use_ring_buffer c2.emit_accepts c2.emit_cancels c2.out
      c2.current_timestamp c2.trades_executed c2.messages_dropped with hr2
  set c4 := (if (c3.getLevel ib pi).empty = true then
      (if ib = true then r1.update_best_bid_after_remove price
       else r2.update_best_ask_after_remove price)
    else c3) with hc4
  set c5 := Book.mk c4.bid_levels c4.ask_levels c4.bid_bitmap c4.ask_bitmap
      c4.best_bid c4.best_ask c4.best_bid_word c4.best_ask_word
      c4.bid_level_count c4.ask_level_count c4.order_pool
      (fun j => if j = oid then OrderLocation.mk price idx ib false
        else c4.order_index j)
      c4.order_index_size (c4.active_order_count - 1) c4.max_order_id
      c4.use_ring_buffer c4.emit_accepts c4.emit_cancels c4.out
      c4.current_timestamp c4.trades_executed c4.messages_dropped with hc5
  have hc1pool : ∀ j, c1.poolGet j = A.poolGet j := by
    intro j
    rw [hc1, poolGet_setLevel]
  have hc1o : ∀ b p, ¬ (b = ib ∧ p = pi) → c1.getLevel b p = s.getLevel b p := by
    intro b p h
    rw [hc1, getLevel_setLevel, if_neg h]
    exact hlevo b p h
  have hc1s : c1.getLevel ib pi = PriceLevel.mk
      (if L.tail = NULL_INDEX then idx else L.head) idx (L.count + 1)
      L.total_volume L.total_visible_volume L.total_aon_volume
      L.total_non_aon_volume := by
    rw [hc1, getLevel_setLevel, if_pos (And.intro rfl rfl), hlev]
    simp [remove_from_level_volume, hpq, hph, hpa, Order.is_aon]
  have hc2s : c2.getLevel ib pi = L := by
    rw [hc2, list_remove_getLevel_self, hc1pool idx, hpp, hpn, hc1s]
    by_cases ht : L.tail = NULL_INDEX
    · have hh : L.head = NULL_INDEX := hiff.mpr ht
      simp only [ht, if_pos rfl, eq_self_iff_true, if_true, Nat.add_sub_cancel]
      nth_rewrite 1 [← hh]
      nth_rewrite 1 [← ht]
      rfl
    · simp [ht, Nat.add_sub_cancel]
  have hc2o : ∀ b p, ¬ (b = ib ∧ p = pi) → c2.getLevel b p = s.getLevel b p := by
    intro b p h
    rw [hc2, list_remove_getLevel_other c1 ib pi idx b p h]
    exact hc1o b p h
  have hfr2 : c2.bid_level_count = A.bid_level_count ∧
      c2.ask_level_count = A.ask_level_count ∧
      c2.active_order_count = A.active_order_count ∧
      c2.bid_bitmap = A.bid_bitmap ∧
      c2.ask_bitmap = A.ask_bitmap := by
    rw [hc2]
    refine ⟨?_, ?_, ?_, ?_, ?_⟩
    · rw [(list_remove_frame c1 ib pi idx).2.2.2.2.1, hc1, setLevel_eq]
    · rw [(list_remove_frame c1 ib pi idx).2.2.2.2.2.1, hc1, setLevel_eq]
    · rw [(list_remove_frame c1 ib pi idx).2.2.2.2.2.2.1, hc1, setLevel_eq]
    · rw [(list_remove_frame c1 ib pi idx).2.2.1, hc1, setLevel_eq]
    · rw [(list_remove_frame c1 ib pi idx).2.2.2.1, hc1, setLevel_eq]
  have hc3lev : ∀ b p, c3.getLevel b p = c2.getLevel b p := by
    intro b p
    rw [hc3]
    cases b <;> simp [Book.getLevel]
  have hcond : ((c3.getLevel ib pi).empty = true) = (L.empty = true) := by
    rw [hc3lev ib pi, hc2s]
  have hc4lev : ∀ b p, c4.getLevel b p = c2.getLevel b p := by
    intro b p
    rw [hc4]
    by_cases hwe : (c3.getLevel ib pi).empty = true
    · rw [if_pos hwe]
      by_cases hb2 : ib = true
      · rw [if_pos hb2]
        cases b <;> simp [hr1, update_best_bid_after_remove_eq, Book.getLevel]
      · rw [if_neg hb2]
        cases b <;> simp [hr2, update_best_ask_after_remove_eq, Book.getLevel]
    · rw [if_neg hwe]
      exact hc3lev b p
  have hc4blc : c4.bid_level_count =
      (if L.empty = true ∧ ib = true then c2.bid_level_count - 1
       else c2.bid_level_count) := by
    rw [hc4]
    simp only [hcond]
    by_cases hwe : L.empty = true <;> by_cases hb2 : ib = true <;>
      simp [hwe, hb2, hr1, hr2, hc3, update_best_bid_after_remove_eq,
        update_best_ask_after_remove_eq]
  have hc4alc : c4.ask_level_count =
      (if L.empty = true ∧ ib = false then c2.ask_level_count - 1
       else c2.ask_level_count) := by
    rw [hc4]
    simp only [hcond]
    by_cases hwe : L.empty = true <;> by_cases hb2 : ib = true <;>
      simp [hwe, hb2, hr1, hr2, hc3, update_best_bid_after_remove_eq,
        update_best_ask_after_remove_eq]
  have hc4aoc : c4.active_order_count = c2.active_order_count := by
    rw [hc4]
    simp only [hcond]
    by_cases hwe : L.empty = true <;> by_cases hb2 : ib = true <;>
      simp [hwe, hb2, hr1, hr2, hc3, update_best_bid_after_remove_eq,
        update_best_ask_after_remove_eq]
  have hc4bb : c4.bid_bitmap =
      (if L.empty = true ∧ ib = true then bitmap_clear c2.bid_bitmap pi
       else c2.bid_bitmap) := by
    rw [hc4]
    simp only [hcond]
    by_cases hwe : L.empty = true
    · rw [if_pos hwe]
      by_cases hb2 : ib = true
      · have hbl : c2.bid_levels pi = L := by
          have h0 := hc2s
          rw [hb2] at h0
          simpa [Book.getLevel] using h0
        simp [hb2, hwe, hr1, update_best_bid_after_remove_eq, ← hpi, hbl,
          PriceLevel.empty]
      · simp [hb2, hwe, hr2, update_best_ask_after_remove_eq, ← hpi]
    · rw [if_neg hwe]
      simp [hwe, hc3]
  have hc4ab : c4.ask_bitmap =
      (if L.empty = true ∧ ib = false then bitmap_clear c2.ask_bitmap pi
       else c2.ask_bitmap) := by
    rw [hc4]
    simp only [hcond]
    by_cases hwe : L.empty = true
    · rw [if_pos hwe]
      by_cases hb2 : ib = true
      · simp [hb2, hwe, hr1, update_best_bid_after_remove_eq, ← hpi]
      · have hal : c2.ask_levels pi = L := by
          have h0 := hc2s
          have hb3 : ib = false := by
            cases ib
            · rfl
            · exact absurd rfl hb2
          rw [hb3] at h0
          simpa [Book.getLevel] using h0
        simp [hb2, hwe, hr2, update_best_ask_after_remove_eq, ← hpi, hal,
          PriceLevel.empty]
    · rw [if_neg hwe]
      simp [hwe, hc3]
  have hTlev : ∀ b p, (c5.emit_order_cancelled oid
      ((A.poolGet idx).quantity + (A.poolGet idx).hidden_quantity)).getLevel b p =
      c4.getLevel b p := by
    intro b p
    rw [hc5]
    cases b <;> simp [emit_order_cancelled_eq, Book.getLevel]
  have hTblc : (c5.emit_order_cancelled oid
      ((A.poolGet idx).quantity + (A.poolGet idx).hidden_quantity)).bid_level_count =
      c4.bid_level_count := by
    rw [hc5]
    simp [emit_order_cancelled_eq]
  have hTalc : (c5.emit_order_cancelled oid
      ((A.poolGet idx).quantity + (A.poolGet idx).hidden_quantity)).ask_level_count =
      c4.ask_level_count := by
    rw [hc5]
    simp [emit_order_cancelled_eq]
  have hTaoc : (c5.emit_order_cancelled oid
      ((A.poolGet idx).quantity + (A.poolGet idx).hidden_quantity)).active_order_count =
      c4.active_order_count - 1 := by
    rw [hc5]
    simp [emit_order_cancelled_eq]
  have hTbb : (c5.emit_order_cancelled oid
      ((A.poolGet idx).quantity + (A.poolGet idx).hidden_quantity)).bid_bitmap =
      c4.bid_bitmap := by
    rw [hc5]
    simp [emit_order_cancelled_eq]
  have hTab : (c5.emit_order_cancelled oid
      ((A.poolGet idx).quantity + (A.poolGet idx).hidden_quantity)).ask_bitmap =
      c4.ask_bitmap := by
    rw [hc5]
    simp [emit_order_cancelled_eq]
  refine ⟨?_, ?_, ?_, ?_, ?_, ?_⟩
  · intro b p
    rw [hTlev, hc4lev]
    by_cases hbp : b = ib ∧ p = pi
    · obtain ⟨h1, h2⟩ := hbp
      subst h1
      subst h2
      rw [hc2s]
    · exact hc2o b p hbp
  · rw [hTblc, hc4blc, hfr2.1, hblc]
    by_cases hwe : L.empty = true <;> by_cases hb2 : ib = true <;>
      simp [hwe, hb2] <;> omega
  · rw [hTalc, hc4alc, hfr2.2.1, halc]
    by_cases hwe : L.empty = true <;> by_cases hb2 : ib = true <;>
      simp [hwe, hb2] <;> omega
  · rw [hTaoc, hc4aoc, hfr2.2.2.1, haoc]
    omega
  · intro w
    rw [hTbb, hc4bb, hfr2.2.2.2.1, hbbm]
    by_cases hwe : L.empty = true
    · by_cases hb2 : ib = true
      · simp only [hwe, hb2, and_self, if_true, eq_self_iff_true]
        have hh : L.head = NULL_INDEX := by simpa [PriceLevel.empty] using hwe
        have hb0 : s.bid_bitmap (pi / 64) &&& 2 ^ (pi % 64) = 0 := by
          have := hbit hh
          rwa [if_pos hb2] at this
        have hw0 : s.bid_bitmap (pi / 64) < U64 := by
          have := hword
          rwa [if_pos hb2] at this
        by_cases hw : w = pi / 64
        · simp only [bitmap_clear, bitmap_set, hw, if_pos rfl, eq_self_iff_true,
            if_true]
          exact bitmap_set_clear_restore (s.bid_bitmap (pi / 64)) (pi % 64)
            (Nat.mod_lt pi (by omega)) hw0 hb0
        · simp [bitmap_clear, bitmap_set, hw]
      · simp [hwe, hb2]
    · simp [hwe]
  · intro w
    rw [hTab, hc4ab, hfr2.2.2.2.2, habm]
    by_cases hwe : L.empty = true
    · by_cases hb2 : ib = true
      · simp [hwe, hb2]
      · have hb3 : ib = false := by
          cases ib
          · rfl
          · exact absurd rfl hb2
        simp only [hwe, hb3, and_self, if_true, eq_self_iff_true]
        have hh : L.head = NULL_INDEX := by simpa [PriceLevel.empty] using hwe
        have hb0 : s.ask_bitmap (pi / 64) &&& 2 ^ (pi % 64) = 0 := by
          have := hbit hh
          rwa [hb3] at this
        have hw0 : s.ask_bitmap (pi / 64) < U64 := by
          have := hword
          rwa [hb3] at this
        by_cases hw : w = pi / 64
        · simp only [bitmap_clear, bitmap_set, hw, if_pos rfl, eq_self_iff_true,
            if_true]
          exact bitmap_set_clear_restore (s.ask_bitmap (pi / 64)) (pi % 64)
            (Nat.mod_lt pi (by omega)) hw0 hb0
        · simp [bitmap_clear, bitmap_set, hw]
    · simp [hwe]

/-- C9: a non-aggressive in-range public add of a new order id rests via the
internal add, and immediately cancelling that id returns every per-level
volume sum, the per-level counts, both side level counts, the active order
count and both side bitmaps exactly to their pre-add values.  The book
hypotheses are the structural invariants of a well-formed book: the FIFO
head and tail of the target level are jointly null, the tail (when present)
is a distinct node whose next pointer is null, and the level's bitmap bit
agrees with its emptiness inside a 64-bit word. -/
theorem C9_add_then_cancel_restores (s : Book) (fuel oid : Nat) (ib : Bool)
    (price q : Int) (uid : Nat)
    (hrange : priceToIndex price < MAX_PRICE_LEVELS)
    (hnonagg : s.is_aggressive_add ib price = false)
    (hiff : (s.getLevel ib (priceToIndex price)).head = NULL_INDEX ↔
      (s.getLevel ib (priceToIndex price)).tail = NULL_INDEX)
    (halias : (s.getLevel ib (priceToIndex price)).tail ≠ NULL_INDEX →
      (s.getLevel ib (priceToIndex price)).tail ≠ s.order_pool.allocate.1)
    (hbit : (s.getLevel ib (priceToIndex price)).head = NULL_INDEX →
      (if ib = true then s.bid_bitmap else s.ask_bitmap)
        (priceToIndex price / 64) &&& 2 ^ (priceToIndex price % 64) = 0)
    (hword : (if ib = true then s.bid_bitmap else s.ask_bitmap)
      (priceToIndex price / 64) < U64) :
    s.add_order fuel oid ib price q uid =
      some (s.add_order_internal oid ib price q uid) ∧
    (let t := (s.add_order_internal oid ib price q uid).cancel_order_internal oid
     (∀ b p, t.getLevel b p = s.getLevel b p) ∧
     t.bid_level_count = s.bid_level_count ∧
     t.ask_level_count = s.ask_level_count ∧
     t.active_order_count = s.active_order_count ∧
     (∀ w, t.bid_bitmap w = s.bid_bitmap w) ∧
     (∀ w, t.ask_bitmap w = s.ask_bitmap w)) := by
  constructor
  · unfold Book.add_order
    simp [hnonagg]
  · obtain ⟨h1, h2, h3, h4, h5, h6, h7, h8, h9, h10, h11, h12, h13, h14⟩ :=
      add_order_internal_state s oid ib price q uid hrange halias
    exact cancel_order_internal_restores s (s.add_order_internal oid ib price q uid)
      oid (s.order_pool.allocate.1) ib price q hrange hiff hbit hword
      h8 h9 h1 h2 h3 h4 h5 h6 h7 h10 h11 h12 h13 h14

/-- C9 witness: on the fresh book, a non-aggressive bid of 7 at price 50
under the new id 1 is dispatched to the internal add, and cancelling id 1
right after restores all level data, the counts and both bitmaps; the
structural hypotheses are checked by evaluation. -/
theorem C9_add_then_cancel_restores_witness :
    ((initBook 4).add_order 0 1 true 50 7 3 =
      some ((initBook 4).add_order_internal 1 true 50 7 3)) ∧
    (let t := ((initBook 4).add_order_internal 1 true 50 7 3).cancel_order_internal 1
     (∀ b p, t.getLevel b p = (initBook 4).getLevel b p) ∧
     t.bid_level_count = (initBook 4).bid_level_count ∧
     t.ask_level_count = (initBook 4).ask_level_count ∧
     t.active_order_count = (initBook 4).active_order_count ∧
     (∀ w, t.bid_bitmap w = (initBook 4).bid_bitmap w) ∧
     (∀ w, t.ask_bitmap w = (initBook 4).ask_bitmap w)) :=
  C9_add_then_cancel_restores (initBook 4) 0 1 true 50 7 3 (by decide) (by decide)
    (by decide) (by decide) (by decide) (by decide)

end TitanLOB
